import Mathlib

/-!
# Verification of the LLM Analysis Workflow Engine

Shallow embedding of the core of the `pyairtable-python-services` repository
(`llm-orchestrator`): the fault-tolerance layer (`services/error_handling.py`),
the quality gate (`services/quality_assurance.py`), the category/batch analyzer
(`services/table_analysis.py`) and the workflow job state machine
(`routes/workflow.py`), together with proofs about the spec's claims.

Python `float` arithmetic is modelled by exact rationals (`ℚ`).  Python
exceptions are modelled by `Except`/explicit error values.  Python strings are
modelled by `String` operating on their character lists.
-/

namespace LLMOrch

/-! ## Python string primitives -/

/-- Python `str.lower()` (ASCII case folding, which is all the source relies on). -/
def strLower (s : String) : String := ⟨s.data.map Char.toLower⟩

/-- `charPrefix l pat`: `pat` is a leading segment of `l`. -/
def charPrefix : List Char → List Char → Bool
  | _, [] => true
  | [], _ :: _ => false
  | c :: cs, p :: ps => c = p && charPrefix cs ps

/-- Substring containment on character lists (Python `pat in s`). -/
def charContains : List Char → List Char → Bool
  | [], pat => charPrefix [] pat
  | s@(_ :: cs), pat => charPrefix s pat || charContains cs pat

/-- Python `pat in s` for strings. -/
def pyIn (pat s : String) : Bool := charContains s.data pat.data

/-- Python whitespace as stripped by `str.strip()`. -/
def pyIsSpace (c : Char) : Bool :=
  c = ' ' || c = '\t' || c = '\n' || c = '\r' || c = '\x0b' || c = '\x0c'

/-- Python `str.strip()`. -/
def pyStrip (s : String) : String :=
  ⟨((s.data.dropWhile pyIsSpace).reverse.dropWhile pyIsSpace).reverse⟩

/-- Index of the first occurrence of `c`, or `none`. -/
def charFirstIdx (c : Char) : List Char → Option ℕ
  | [] => none
  | d :: rest =>
    if d = c then some 0
    else match charFirstIdx c rest with
      | some i => some (i + 1)
      | none => none

/-- Python `s.find(c)`: index of first occurrence, `-1` if absent. -/
def pyFind (s : String) (c : Char) : Int :=
  match charFirstIdx c s.data with
  | some i => (i : Int)
  | none => -1

/-- Python `s.rfind(c)`: index of last occurrence, `-1` if absent. -/
def pyRFind (s : String) (c : Char) : Int :=
  match charFirstIdx c s.data.reverse with
  | some i => (s.length : Int) - 1 - (i : Int)
  | none => -1

/-- Python slice `s[a:b]` for `0 ≤ a`, `0 ≤ b` (the only use sites guarantee this). -/
def pySlice (s : String) (a b : ℕ) : String := ⟨(s.data.drop a).take (b - a)⟩

/-! ## JSON values and `json.loads`

The parser models CPython's `json.loads` on the inputs the services feed it
(standard JSON; the nonstandard `NaN/Infinity` extensions and the strict
control-character check inside strings are not modelled).  Numbers are exact
rationals. -/

inductive Json where
  | null
  | bool (b : Bool)
  | num (q : ℚ)
  | str (s : String)
  | arr (elems : List Json)
  | obj (fields : List (String × Json))

/-- JSON/`json.loads` whitespace. -/
def jsonWs (c : Char) : Bool := c = ' ' || c = '\t' || c = '\n' || c = '\r'

def skipWs (cs : List Char) : List Char := cs.dropWhile jsonWs

/-- Numeric value of a list of decimal digits. -/
def natOfDigits (ds : List Char) : ℕ :=
  ds.foldl (fun n c => n * 10 + (c.toNat - 48)) 0

/-- Leading run of decimal digits (fails on an empty run). -/
def parseDigits (cs : List Char) : Option (List Char × List Char) :=
  let ds := cs.takeWhile Char.isDigit
  if ds.isEmpty then none else some (ds, cs.drop ds.length)

/-- Hex digit value. -/
def hexVal (c : Char) : Option ℕ :=
  if '0' ≤ c ∧ c ≤ '9' then some (c.toNat - 48)
  else if 'a' ≤ c ∧ c ≤ 'f' then some (c.toNat - 87)
  else if 'A' ≤ c ∧ c ≤ 'F' then some (c.toNat - 55)
  else none

/-- JSON string body (after the opening quote), with escape sequences. -/
def parseJsonString (acc : List Char) : List Char → Option (String × List Char)
  | [] => none
  | '"' :: rest => some (⟨acc.reverse⟩, rest)
  | '\\' :: esc :: rest =>
    if esc = '"' then parseJsonString ('"' :: acc) rest
    else if esc = '\\' then parseJsonString ('\\' :: acc) rest
    else if esc = '/' then parseJsonString ('/' :: acc) rest
    else if esc = 'b' then parseJsonString ('\x08' :: acc) rest
    else if esc = 'f' then parseJsonString ('\x0c' :: acc) rest
    else if esc = 'n' then parseJsonString ('\n' :: acc) rest
    else if esc = 'r' then parseJsonString ('\r' :: acc) rest
    else if esc = 't' then parseJsonString ('\t' :: acc) rest
    else if esc = 'u' then
      match rest with
      | a :: b :: c :: d :: rest' =>
        match hexVal a, hexVal b, hexVal c, hexVal d with
        | some x, some y, some z, some w =>
          parseJsonString (Char.ofNat (((x * 16 + y) * 16 + z) * 16 + w) :: acc) rest'
        | _, _, _, _ => none
      | _ => none
    else none
  | c :: rest => parseJsonString (c :: acc) rest

/-- JSON number starting at the current position (grammar of RFC 8259, as
`json.loads` accepts it; value as an exact rational). -/
def parseJsonNumber (cs : List Char) : Option (ℚ × List Char) := do
  let (sign, cs) := if cs.head? = some '-' then ((-1 : ℚ), cs.drop 1) else (1, cs)
  let (intDs, cs) ← parseDigits cs
  if intDs.head? = some '0' ∧ intDs.length ≠ 1 then none else
  let (fracDs, cs) ←
    if cs.head? = some '.' then do
      let (ds, cs') ← parseDigits (cs.drop 1)
      pure (ds, cs')
    else pure ([], cs)
  let (expVal, cs) ←
    if cs.head? = some 'e' ∨ cs.head? = some 'E' then do
      let cs' := cs.drop 1
      let (esign, cs') :=
        if cs'.head? = some '-' then ((-1 : Int), cs'.drop 1)
        else if cs'.head? = some '+' then (1, cs'.drop 1)
        else (1, cs')
      let (eds, cs'') ← parseDigits cs'
      pure (esign * (natOfDigits eds : Int), cs'')
    else pure ((0 : Int), cs)
  let mantissa : ℚ :=
    (natOfDigits intDs : ℚ) + (natOfDigits fracDs : ℚ) / (10 : ℚ) ^ fracDs.length
  pure (sign * mantissa * (10 : ℚ) ^ expVal, cs)

mutual

/-- JSON value at the current position. -/
def parseJsonValue : ℕ → List Char → Option (Json × List Char)
  | 0, _ => none
  | fuel + 1, cs =>
    match skipWs cs with
    | [] => none
    | c :: rest =>
      if c = 'n' then
        if charPrefix rest ['u', 'l', 'l'] then some (.null, rest.drop 3) else none
      else if c = 't' then
        if charPrefix rest ['r', 'u', 'e'] then some (.bool true, rest.drop 3) else none
      else if c = 'f' then
        if charPrefix rest ['a', 'l', 's', 'e'] then some (.bool false, rest.drop 4) else none
      else if c = '"' then
        match parseJsonString [] rest with
        | some (s, rest') => some (.str s, rest')
        | none => none
      else if c = '[' then
        match skipWs rest with
        | ']' :: rest' => some (.arr [], rest')
        | rest' =>
          match parseJsonElems fuel rest' with
          | some (vs, rest'') => some (.arr vs, rest'')
          | none => none
      else if c = '{' then
        match skipWs rest with
        | '}' :: rest' => some (.obj [], rest')
        | rest' =>
          match parseJsonMembers fuel rest' with
          | some (kvs, rest'') => some (.obj kvs, rest'')
          | none => none
      else
        match parseJsonNumber (c :: rest) with
        | some (q, rest') => some (.num q, rest')
        | none => none
termination_by structural fuel => fuel

/-- Comma-separated array elements, ending at `]`. -/
def parseJsonElems : ℕ → List Char → Option (List Json × List Char)
  | 0, _ => none
  | fuel + 1, cs => do
    let (v, rest) ← parseJsonValue fuel cs
    match skipWs rest with
    | ',' :: rest' =>
      let (vs, rest'') ← parseJsonElems fuel rest'
      pure (v :: vs, rest'')
    | ']' :: rest' => pure ([v], rest')
    | _ => none
termination_by structural fuel => fuel

/-- Comma-separated object members, ending at `}`. -/
def parseJsonMembers : ℕ → List Char → Option (List (String × Json) × List Char)
  | 0, _ => none
  | fuel + 1, cs =>
    match skipWs cs with
    | '"' :: rest => do
      let (k, rest') ← parseJsonString [] rest
      match skipWs rest' with
      | ':' :: rest'' => do
        let (v, rest₃) ← parseJsonValue fuel rest''
        match skipWs rest₃ with
        | ',' :: rest₄ =>
          let (kvs, rest₅) ← parseJsonMembers fuel rest₄
          pure ((k, v) :: kvs, rest₅)
        | '}' :: rest₄ => pure ([(k, v)], rest₄)
        | _ => none
      | _ => none
    | _ => none
termination_by structural fuel => fuel

end

/-- `json.loads`: parse a complete JSON document, `none` on `JSONDecodeError`. -/
def jsonLoads (s : String) : Option Json :=
  match parseJsonValue (2 * s.length + 2) s.data with
  | some (v, rest) => if skipWs rest = [] then some v else none
  | none => none

/-- Python `dict.get(key, default)` on a parsed object: when `json.loads` builds
a `dict`, a repeated key keeps its **last** occurrence, hence the reversed
lookup. -/
def jsonGet (fields : List (String × Json)) (key : String) (dflt : Json) : Json :=
  match fields.reverse.find? (fun kv => kv.1 = key) with
  | some kv => kv.2
  | none => dflt

/-- Python `key in dict` on a parsed object. -/
def jsonHasKey (fields : List (String × Json)) (key : String) : Bool :=
  (fields.find? (fun kv => kv.1 = key)).isSome

/-- `dict.get(key)` without default: `none` for a missing key. -/
def dictGet? (fields : List (String × Json)) (key : String) : Option Json :=
  (fields.reverse.find? (fun kv => kv.1 = key)).map (fun kv => kv.2)

/-- Python `d[key] = v`: replace the value of an existing key, else append. -/
def dictSet (fields : List (String × Json)) (key : String) (v : Json) :
    List (String × Json) :=
  if jsonHasKey fields key then
    fields.map (fun kv => if kv.1 = key then (key, v) else kv)
  else fields ++ [(key, v)]

/-- Python `len()` on a parsed JSON value; `none` models the `TypeError` raised
on values without a length. -/
def jsonLen : Json → Option ℕ
  | .arr l => some l.length
  | .obj l => some l.length
  | .str s => some s.length
  | _ => none

/-- Python `s[:n]`. -/
def strTake (s : String) (n : ℕ) : String := ⟨s.data.take n⟩

/-! ## Fault-Tolerance Layer (`services/error_handling.py`)

A Python exception is modelled by its message (`str(error)`) and its type name
(`type(error).__name__`), the only two attributes the service inspects. -/

structure PyError where
  message : String
  typeName : String
deriving DecidableEq, Repr

/-- `ErrorCategory` (`error_handling.py` lines 23-32).  Note: the enum has no
`CRITICAL` member; `ErrorSeverity` does. -/
inductive ErrorCategory where
  | network | api_limit | authentication | parsing | validation | timeout | resource | unknown
deriving DecidableEq, Repr

/-- The `.value` string of an `ErrorCategory` member. -/
def ErrorCategory.value : ErrorCategory → String
  | .network => "network"
  | .api_limit => "api_limit"
  | .authentication => "authentication"
  | .parsing => "parsing"
  | .validation => "validation"
  | .timeout => "timeout"
  | .resource => "resource"
  | .unknown => "unknown"

/-- `ErrorSeverity` (`error_handling.py` lines 15-20). -/
inductive ErrorSeverity where
  | low | medium | high | critical
deriving DecidableEq, Repr

def ErrorSeverity.value : ErrorSeverity → String
  | .low => "low"
  | .medium => "medium"
  | .high => "high"
  | .critical => "critical"

/-- `ErrorContext` (`error_handling.py` lines 35-44). `additional_info` is a
Python dict, modelled as a key/value list. -/
structure ErrorContext where
  operation : String
  table_id : Option String := none
  table_name : Option String := none
  category : Option String := none
  attempt_number : ℕ := 1
  max_attempts : ℕ := 3
  additional_info : Option (List (String × Json)) := none

/-- Python `str(x)` of an optional value (`str(None) = "None"`). -/
def strOfOptError : Option PyError → String
  | none => "None"
  | some e => e.message

def strOfOptStr : Option String → String
  | none => "None"
  | some s => s

/-- `ErrorHandlingService._categorize_error` (lines 339-357): ordered keyword
matching over the lowered message and type name. -/
def categorizeError (e : PyError) : ErrorCategory :=
  let errorStr := strLower e.message
  let errorType := strLower e.typeName
  if pyIn "timeout" errorStr || pyIn "timeout" errorType then .timeout
  else if pyIn "rate" errorStr || pyIn "quota" errorStr || pyIn "limit" errorStr then .api_limit
  else if pyIn "auth" errorStr || pyIn "unauthorized" errorStr || pyIn "forbidden" errorStr then
    .authentication
  else if pyIn "json" errorStr || pyIn "parse" errorStr || pyIn "decode" errorStr then .parsing
  else if pyIn "network" errorStr || pyIn "connection" errorStr || pyIn "http" errorType then
    .network
  else if pyIn "memory" errorStr || pyIn "resource" errorStr then .resource
  else .unknown

/-- `ErrorHandlingService._should_retry` (lines 385-409). -/
def shouldRetry (e : PyError) : Bool :=
  let category := categorizeError e
  if category = .authentication ∨ category = .validation then false
  else if category = .network ∨ category = .timeout ∨ category = .api_limit ∨
      category = .unknown then true
  else true

/-- `retry_config` defaults (`__init__`, lines 232-237). -/
def retryBaseDelay : ℚ := 1

def retryMaxDelay : ℚ := 30

def retryBackoffMultiplier : ℚ := 2

/-- `ErrorHandlingService._calculate_retry_delay` (lines 411-416).  Attempt
numbers are ≥ 1 at every call site, so natural subtraction is faithful. -/
def calculateRetryDelay (attempt : ℕ) : ℚ :=
  min (retryBaseDelay * retryBackoffMultiplier ^ (attempt - 1)) retryMaxDelay

/-- One per-operation circuit-breaker record, with the field defaults installed
by `_update_circuit_breaker` (lines 435-442).  `half_open` is absent from the
initial dict, which reads as `false` through the `.get` calls. -/
structure CircuitBreaker where
  failure_count : ℕ := 0
  is_open : Bool := false
  opened_at : ℚ := 0
  timeout : ℚ := 60
  threshold : ℕ := 5
  half_open : Bool := false
deriving DecidableEq, Repr

/-- The `circuit_breakers` dict: operation name to breaker record. -/
abbrev Breakers := String → Option CircuitBreaker

def setBreaker (cbs : Breakers) (operation : String) (c : CircuitBreaker) : Breakers :=
  fun s => if s = operation then some c else cbs s

/-- `ErrorHandlingService._is_circuit_open` (lines 418-431).  Returns the
boolean together with the updated map, because the expired-timeout branch
mutates the breaker (half-open transition).  `now` stands for `time.time()`. -/
def isCircuitOpen (cbs : Breakers) (operation : String) (now : ℚ) : Bool × Breakers :=
  match cbs operation with
  | none => (false, cbs)
  | some circuit =>
    if !circuit.is_open then (false, cbs)
    else if now - circuit.opened_at > circuit.timeout then
      (false, setBreaker cbs operation { circuit with is_open := false, half_open := true })
    else (true, cbs)

/-- `ErrorHandlingService._update_circuit_breaker` (lines 433-451). -/
def updateCircuitBreaker (cbs : Breakers) (operation : String) (now : ℚ) : Breakers :=
  let circuit := (cbs operation).getD {}
  let circuit := { circuit with failure_count := circuit.failure_count + 1 }
  let circuit :=
    if circuit.threshold ≤ circuit.failure_count then
      { circuit with is_open := true, opened_at := now }
    else circuit
  setBreaker cbs operation circuit

/-- `ErrorHandlingService._reset_circuit_breaker` (lines 453-458). -/
def resetCircuitBreaker (cbs : Breakers) (operation : String) : Breakers :=
  match cbs operation with
  | none => cbs
  | some circuit =>
    setBreaker cbs operation
      { circuit with failure_count := 0, is_open := false, half_open := false }

/-- `ErrorHandlingService._assess_error_severity` (lines 359-383). -/
def assessErrorSeverity (e : PyError) (ctx : ErrorContext) : ErrorSeverity :=
  let category := categorizeError e
  let base : ErrorSeverity :=
    match category with
    | .authentication => .high
    | .api_limit => .high
    | .network => .medium
    | .timeout => .medium
    | .resource => .high
    | .parsing => .low
    | .validation => .low
    | .unknown => .medium
  if ctx.max_attempts ≤ ctx.attempt_number then
    match base with
    | .low => .medium
    | .medium => .high
    | b => b
  else base

/-- `ErrorRecord` (lines 47-57). -/
structure ErrorRecord where
  timestamp : ℚ
  error_type : String
  error_message : String
  category : ErrorCategory
  severity : ErrorSeverity
  context : ErrorContext

/-- The mutable state of an `ErrorHandlingService` instance touched by
`execute_with_fallback`: the error log, the pattern counters and the circuit
breakers (the fallback-strategy table is fixed at construction and the cache
store of the `"cached"` strategy starts empty and is never written). -/
structure FTState where
  error_records : List ErrorRecord := []
  error_patterns : String → ℕ := fun _ => 0
  breakers : Breakers := fun _ => none

def initFTState : FTState := {}

/-- `ErrorHandlingService._record_error` (lines 320-337). -/
def recordError (st : FTState) (e : PyError) (ctx : ErrorContext) (now : ℚ) : FTState :=
  let record : ErrorRecord :=
    { timestamp := now, error_type := e.typeName, error_message := e.message,
      category := categorizeError e, severity := assessErrorSeverity e ctx, context := ctx }
  let patternKey := record.category.value ++ "_" ++ record.error_type
  { st with
    error_records := st.error_records ++ [record],
    error_patterns := fun s =>
      if s = patternKey then st.error_patterns s + 1 else st.error_patterns s }

/-! ### Fallback strategies (lines 60-223)

Strategy results are the Python dicts the strategies build, modelled as `Json`
objects; a raising strategy returns `.error`. -/

/-- `SimplifiedAnalysisFallback._categorize_error` (lines 109-124): the
fallback's own, message-only classifier. -/
def fbCategorizeError (error : Option PyError) : ErrorCategory :=
  let errorStr := strLower (strOfOptError error)
  if pyIn "timeout" errorStr || pyIn "timed out" errorStr then .timeout
  else if pyIn "rate limit" errorStr || pyIn "quota" errorStr then .api_limit
  else if pyIn "authentication" errorStr || pyIn "unauthorized" errorStr then .authentication
  else if pyIn "json" errorStr || pyIn "parse" errorStr then .parsing
  else if pyIn "network" errorStr || pyIn "connection" errorStr then .network
  else .unknown

/-- `SimplifiedAnalysisFallback._assess_severity` (lines 126-141).  The
`severity_map` dict literal starts with the key `ErrorCategory.CRITICAL`
(line 131); the `ErrorCategory` enum has **no** member `CRITICAL`, so merely
evaluating the literal raises `AttributeError` before any lookup happens. -/
def fbAssessSeverity (_error : Option PyError) : Except PyError ErrorSeverity :=
  .error { message := "CRITICAL", typeName := "AttributeError" }

/-- `SimplifiedAnalysisFallback.execute` (lines 81-107).  The returned dict is
built in full in the success branch; because `_assess_severity` always raises,
that branch is unreachable and `execute` always propagates `AttributeError`. -/
def simplifiedAnalysisFallbackExecute (ctx : ErrorContext) (error : Option PyError) :
    Except PyError Json :=
  match fbAssessSeverity error with
  | .error e => .error e
  | .ok severity =>
    .ok (.obj
      [("fallback_used", .bool true),
       ("fallback_type", .str "simplified_analysis"),
       ("analysis_results", .obj
         [("structure", .arr
           [.obj
             [("issue_type", .str "analysis_fallback"),
              ("priority", .str "medium"),
              ("description", .str ("Full analysis failed for table " ++
                strOfOptStr ctx.table_name ++ ". Manual review recommended.")),
              ("recommendation", .str
                "Perform manual analysis of this table structure and configuration."),
              ("impact", .str "Unknown - requires manual assessment"),
              ("effort", .str "medium"),
              ("estimated_improvement", .str "To be determined"),
              ("implementation_steps", .arr
                [.str "Schedule manual review", .str "Assess table structure",
                 .str "Implement improvements"]),
              ("confidence_score", .num (3 / 10))]])]),
       ("error_info", .obj
         [("original_error", .str (strOfOptError error)),
          ("error_category", .str (fbCategorizeError error).value),
          ("severity", .str severity.value)])])

/-- `CachedResultsFallback.execute` (lines 154-174), for a given cache store
(the store of the strategy registered by `_setup_fallback_strategies` is the
empty dict and nothing ever writes to it). -/
def cachedResultsFallbackExecute (cacheStore : List (String × Json)) (ctx : ErrorContext)
    (error : Option PyError) : Except PyError Json :=
  let cacheKey := strOfOptStr ctx.table_id ++ "_" ++ strOfOptStr ctx.category
  match dictGet? cacheStore cacheKey with
  | some cached =>
    match cached with
    | .obj kvs =>
      let kvs := dictSet kvs "fallback_used" (.bool true)
      let kvs := dictSet kvs "fallback_type" (.str "cached_results")
      let cacheInfo : Json := .obj
        [("cached_at", jsonGet kvs "timestamp" (.str "unknown")),
         ("reason", .str ("Current analysis failed: " ++ strTake (strOfOptError error) 100))]
      .ok (.obj (dictSet kvs "cache_info" cacheInfo))
    | _ =>
      -- item assignment on a non-dict cached value raises
      .error { message := "object does not support item assignment", typeName := "TypeError" }
  | none => simplifiedAnalysisFallbackExecute ctx error

/-- The `context.category or "unknown"` idiom (falsy `None`/empty string). -/
def categoryOrUnknown (category : Option String) : String :=
  match category with
  | some c => if c = "" then "unknown" else c
  | none => "unknown"

/-- `PartialResultsFallback.execute` (lines 186-223; the class name contains a
token this development cannot use as an identifier, hence `salvage`).  The
inner `except` catches `JSONDecodeError`, `KeyError` and `TypeError` only: a
non-string `partial_response` raises an uncaught `AttributeError` at
`.find('[')`. -/
def salvageResultsFallbackExecute (ctx : ErrorContext) (error : Option PyError) :
    Except PyError Json :=
  let partialData := ctx.additional_info.getD []
  match dictGet? partialData "partial_response" with
  | some pr =>
    match pr with
    | .str partialResponse =>
      let jsonStart := pyFind partialResponse '['
      let jsonEnd := pyRFind partialResponse ']'
      if jsonStart ≠ -1 ∧ jsonEnd ≠ -1 then
        let partialJson := pySlice partialResponse jsonStart.toNat (jsonEnd.toNat + 1)
        match jsonLoads partialJson with
        | some partialResults =>
          match jsonLen partialResults with
          | some extractedCount =>
            .ok (.obj
              [("fallback_used", .bool true),
               ("fallback_type", .str "partial_results"),
               ("analysis_results", .obj
                 [(categoryOrUnknown ctx.category, partialResults)]),
               ("partial_info", .obj
                 [("partial_response_length", .num partialResponse.length),
                  ("extracted_results_count", .num extractedCount),
                  ("warning", .str "Results are incomplete due to analysis failure")])])
          | none =>
            -- len() raised TypeError: caught, logged, falls through to simplified
            simplifiedAnalysisFallbackExecute ctx error
        | none =>
          -- json.loads raised JSONDecodeError: caught, falls through to simplified
          simplifiedAnalysisFallbackExecute ctx error
      else simplifiedAnalysisFallbackExecute ctx error
    | _ => .error { message := "object has no attribute find", typeName := "AttributeError" }
  | none => simplifiedAnalysisFallbackExecute ctx error

/-- Dispatch of `self.fallback_strategies[name].execute` for the three
strategies installed by `_setup_fallback_strategies` (lines 246-250). -/
def strategyExecute (name : String) (ctx : ErrorContext) (error : Option PyError) :
    Except PyError Json :=
  if name = "simplified" then simplifiedAnalysisFallbackExecute ctx error
  else if name = "cached" then cachedResultsFallbackExecute [] ctx error
  else salvageResultsFallbackExecute ctx error

/-- Whether `fallback_strategy` names a registered strategy
(`self.fallback_strategies.get(fallback_strategy)` is not `None`). -/
def knownStrategy (name : String) : Bool :=
  name = "simplified" || name = "cached" || name = "partial"

/-- Result of `execute_with_fallback`: the operation's own result, a fallback
dict, or a propagated exception (`raised none` models `raise None`, the
`TypeError` path taken when no attempt ever ran and the strategy is unknown). -/
inductive EWFOutcome (α : Type) where
  | ok (result : α)
  | fallbackResult (result : Json)
  | raised (error : Option PyError)

/-- The fallback stage of `execute_with_fallback` (lines 304-318): run the
named strategy; if it raises, run a fresh `SimplifiedAnalysisFallback`; a
second failure propagates; an unknown name re-raises `last_error`. -/
def fallbackOutcome (ctx : ErrorContext) (fallbackStrategy : String)
    (lastError : Option PyError) : EWFOutcome α :=
  if knownStrategy fallbackStrategy then
    match strategyExecute fallbackStrategy ctx lastError with
    | .ok result => .fallbackResult result
    | .error _fallbackError =>
      match simplifiedAnalysisFallbackExecute ctx lastError with
      | .ok result => .fallbackResult result
      | .error e => .raised (some e)
  else .raised lastError

/-- How the retry loop of `execute_with_fallback` terminates. -/
inductive LoopExit (α : Type) where
  | success (result : α)
  | exhausted (lastError : Option PyError)

/-- The retry loop of `execute_with_fallback` (lines 269-302) over the pending
attempt numbers.  The operation is a function of the attempt number; `invoked`
accumulates the attempts at which the wrapped operation was actually called.
`rest ≠ []` is exactly `attempt < context.max_attempts`. -/
def ewfLoop (operation : ℕ → Except PyError α) (ctx : ErrorContext) (now : ℚ) :
    List ℕ → FTState → Option PyError → List ℕ → LoopExit α × FTState × List ℕ
  | [], st, lastError, invoked => (.exhausted lastError, st, invoked)
  | attempt :: rest, st, lastError, invoked =>
    let check := isCircuitOpen st.breakers ctx.operation now
    let st := { st with breakers := check.2 }
    if check.1 then (.exhausted lastError, st, invoked)
    else
      match operation attempt with
      | .ok result =>
        (.success result,
         { st with breakers := resetCircuitBreaker st.breakers ctx.operation },
         invoked ++ [attempt])
      | .error e =>
        let st := recordError st e { ctx with attempt_number := attempt } now
        if !rest.isEmpty && shouldRetry e then
          ewfLoop operation ctx now rest st (some e) (invoked ++ [attempt])
        else
          (.exhausted (some e),
           { st with breakers := updateCircuitBreaker st.breakers ctx.operation now },
           invoked ++ [attempt])

/-- `ErrorHandlingService.execute_with_fallback` (lines 252-318).  Returns the
outcome, the final service state, and the list of attempt numbers at which the
wrapped operation was invoked. -/
def executeWithFallback (st : FTState) (operation : ℕ → Except PyError α)
    (ctx : ErrorContext) (fallbackStrategy : String) (now : ℚ) :
    EWFOutcome α × FTState × List ℕ :=
  match ewfLoop operation ctx now (List.range' 1 ctx.max_attempts) st none [] with
  | (.success r, st, invoked) => (.ok r, st, invoked)
  | (.exhausted lastError, st, invoked) =>
    (fallbackOutcome ctx fallbackStrategy lastError, st, invoked)

/-! ## Category / Batch Analyzer (`services/table_analysis.py`) -/

/-- `AnalysisCategory` (`table_analysis.py` lines 20-29); `structure` is a Lean
keyword, hence the primed constructor. -/
inductive AnalysisCategory where
  | structure' | normalization | field_types | relationships
  | performance | data_quality | naming_conventions | indexing
deriving DecidableEq, Repr

def AnalysisCategory.value : AnalysisCategory → String
  | .structure' => "structure"
  | .normalization => "normalization"
  | .field_types => "field_types"
  | .relationships => "relationships"
  | .performance => "performance"
  | .data_quality => "data_quality"
  | .naming_conventions => "naming_conventions"
  | .indexing => "indexing"

/-- `list(AnalysisCategory)` in declaration order. -/
def allAnalysisCategories : List AnalysisCategory :=
  [.structure', .normalization, .field_types, .relationships,
   .performance, .data_quality, .naming_conventions, .indexing]

/-- `TableMetadata` (`table_analysis.py` lines 52-61). -/
structure TableMetadata where
  base_id : String
  table_id : String
  table_name : String
  fields : List Json := []
  record_count : Option ℕ := none
  relationships : Option (List Json) := none
  views : Option (List Json) := none

/-- Python `float(x)` applied to a parsed JSON value: numbers pass through,
`bool` is an `int` subtype, numeric strings convert, everything else raises
`TypeError`; a non-numeric string raises `ValueError`.  (The `inf`/`nan`
spellings are not modelled; no claim involves them.) -/
def parseFloatStr (s : String) : Option ℚ :=
  let cs := (s.data.dropWhile pyIsSpace).reverse.dropWhile pyIsSpace |>.reverse
  let (sign, cs) :=
    if cs.head? = some '-' then ((-1 : ℚ), cs.drop 1)
    else if cs.head? = some '+' then (1, cs.drop 1)
    else (1, cs)
  let intDs := cs.takeWhile Char.isDigit
  let cs := cs.drop intDs.length
  let (fracDs, cs) :=
    if cs.head? = some '.' then
      let ds := (cs.drop 1).takeWhile Char.isDigit
      (ds, (cs.drop 1).drop ds.length)
    else ([], cs)
  if intDs.isEmpty ∧ fracDs.isEmpty then none
  else
    let mantissa : ℚ :=
      sign * ((natOfDigits intDs : ℚ) + (natOfDigits fracDs : ℚ) / (10 : ℚ) ^ fracDs.length)
    match cs with
    | [] => some mantissa
    | e :: cs' =>
      if e = 'e' ∨ e = 'E' then
        let (esign, cs') :=
          if cs'.head? = some '-' then ((-1 : Int), cs'.drop 1)
          else if cs'.head? = some '+' then (1, cs'.drop 1)
          else (1, cs')
        let eds := cs'.takeWhile Char.isDigit
        if eds.isEmpty ∨ ¬(cs'.drop eds.length).isEmpty then none
        else some (mantissa * (10 : ℚ) ^ (esign * (natOfDigits eds : Int)))
      else none

def pyFloat : Json → Except PyError ℚ
  | .num q => .ok q
  | .bool b => .ok (if b then 1 else 0)
  | .str s =>
    match parseFloatStr s with
    | some q => .ok q
    | none => .error { message := "could not convert string to float", typeName := "ValueError" }
  | _ => .error { message := "float() argument must be a string or a real number",
                  typeName := "TypeError" }

/-- A finding as `_parse_analysis_response` actually builds it: the
`AnalysisResult` dataclass declares string/list fields, but the parser stores
whatever JSON values `finding.get` returns, so the free-form fields are raw
`Json`; only `confidence_score` goes through `float()`. -/
structure RawFinding where
  table_id : String
  table_name : String
  category : AnalysisCategory
  priority : Json
  issue_type : Json
  description : Json
  recommendation : Json
  impact : Json
  effort : Json
  estimated_improvement : Json
  implementation_steps : Json
  confidence_score : ℚ

/-- The `AnalysisResult(...)` construction inside the parse loop
(`table_analysis.py` lines 529-542), for an element that is a JSON object and
a successfully converted confidence score. -/
def mkRawFinding (tableData : TableMetadata) (category : AnalysisCategory)
    (kvs : List (String × Json)) (conf : ℚ) : RawFinding :=
  { table_id := tableData.table_id,
    table_name := tableData.table_name,
    category := category,
    priority := jsonGet kvs "priority" (.str "medium"),
    issue_type := jsonGet kvs "issue_type" (.str ""),
    description := jsonGet kvs "description" (.str ""),
    recommendation := jsonGet kvs "recommendation" (.str ""),
    impact := jsonGet kvs "impact" (.str ""),
    effort := jsonGet kvs "effort" (.str "medium"),
    estimated_improvement := jsonGet kvs "estimated_improvement" (.str ""),
    implementation_steps := jsonGet kvs "implementation_steps" (.arr []),
    confidence_score := conf }

/-- The `for finding in findings` loop (lines 526-547).  The inner `except`
catches only `KeyError, ValueError, TypeError` and then `continue`s; a
non-object element raises `AttributeError` at `finding.get`, which escapes to
the outer `except Exception` handler, so the **whole** call returns `[]`,
discarding findings already accumulated. -/
def processFindings (tableData : TableMetadata) (category : AnalysisCategory) :
    List Json → List RawFinding → List RawFinding
  | [], acc => acc
  | finding :: rest, acc =>
    match finding with
    | .obj kvs =>
      match pyFloat (jsonGet kvs "confidence_score" (.num (7 / 10))) with
      | .ok conf =>
        processFindings tableData category rest (acc ++ [mkRawFinding tableData category kvs conf])
      | .error _ => processFindings tableData category rest acc
    | _ => []

/-- `TableAnalysisService._parse_analysis_response` (lines 505-556). -/
def parseAnalysisResponse (tableData : TableMetadata) (category : AnalysisCategory)
    (responseText : String) : List RawFinding :=
  let jsonStart := pyFind responseText '['
  let jsonEnd := pyRFind responseText ']' + 1
  if jsonStart = -1 ∨ jsonEnd = 0 then []
  else
    match jsonLoads (pySlice responseText jsonStart.toNat jsonEnd.toNat) with
    | none => []
    | some json =>
      match json with
      | .arr findings => processFindings tableData category findings []
      | _ => []

/-- The chunks `tables[i:i+batch_size]` for `i in range(0, len(tables),
batch_size)`.  A zero `batch_size` makes `range` raise `ValueError` in the
source; every theorem below assumes `0 < batchSize`, where `max batchSize 1 =
batchSize`. -/
def toBatches : ℕ → List α → List (List α)
  | _, [] => []
  | bs, x :: xs =>
    (x :: xs).take (max bs 1) :: toBatches bs ((x :: xs).drop (max bs 1))
termination_by _ l => l.length
decreasing_by
  simp only [List.length_drop]
  have h1 : 1 ≤ max bs 1 := Nat.le_max_right bs 1
  simp only [List.length_cons]
  omega

/-- `results[table_id] = table_results` on the accumulated assoc list
(Python dict assignment: replace an existing key in place, else append). -/
def assocSet (l : List (String × ρ)) (k : String) (v : ρ) : List (String × ρ) :=
  if (l.find? (fun kv => kv.1 = k)).isSome then
    l.map (fun kv => if kv.1 = k then (k, v) else kv)
  else l ++ [(k, v)]

/-- `TableAnalysisService.analyze_tables_batch` (lines 400-442).  The
per-table analyzer (`analyze_table_comprehensive` behind the semaphore) is a
parameter; `asyncio.gather(..., return_exceptions=True)` captures an
exception as a value, which the collection loop logs and skips, so a failed
table contributes no entry. -/
def analyzeTablesBatch (analyze : TableMetadata → Except PyError ρ)
    (tables : List TableMetadata) (batchSize : ℕ) : List (String × ρ) :=
  (toBatches batchSize tables).foldl
    (fun results batch =>
      batch.foldl
        (fun results t =>
          match analyze t with
          | .ok tableResults => assocSet results t.table_id tableResults
          | .error _ => results)
        results)
    []

/-- The per-category cost heuristics of `estimate_batch_cost` (lines 587-596).
All eight members are present, so the `.get(cat, 0.02)` default is dead. -/
def categoryCosts : AnalysisCategory → ℚ
  | .structure' => 0.02
  | .normalization => 0.025
  | .field_types => 0.015
  | .relationships => 0.03
  | .performance => 0.02
  | .data_quality => 0.02
  | .naming_conventions => 0.01
  | .indexing => 0.015

/-- Python `round(x, 4)` (half-to-even on the 10⁻⁴-scaled value; on every
value reachable in `estimate_batch_cost` the scaled value is an integer, so
the tie rule never fires). -/
def round4 (x : ℚ) : ℚ :=
  let scaled := x * 10000
  let fl : ℤ := ⌊scaled⌋
  let r : ℤ :=
    if scaled - fl < 1 / 2 then fl
    else if (1 / 2 : ℚ) < scaled - fl then fl + 1
    else if 2 ∣ fl then fl else fl + 1
  (r : ℚ) / 10000

/-- The dict returned by `estimate_batch_cost`. -/
structure BatchCostEstimate where
  estimated_total_cost : ℚ
  cost_per_table : ℚ
  categories_count : ℕ
  table_count : ℕ
  estimated_time_minutes : ℚ

/-- `TableAnalysisService.estimate_batch_cost` (lines 581-608).  With
`table_count = 0` the `cost_per_table` division raises `ZeroDivisionError`
while the return dict is being built. -/
def estimateBatchCost (tableCount : ℕ) (categories : Option (List AnalysisCategory)) :
    Except PyError BatchCostEstimate :=
  let cats := categories.getD allAnalysisCategories
  let totalEstimatedCost : ℚ := (cats.map categoryCosts).sum * tableCount
  if tableCount = 0 then
    .error { message := "float division by zero", typeName := "ZeroDivisionError" }
  else
    .ok { estimated_total_cost := round4 totalEstimatedCost,
          cost_per_table := round4 (totalEstimatedCost / tableCount),
          categories_count := cats.length,
          table_count := tableCount,
          estimated_time_minutes := (tableCount : ℚ) * cats.length * (1 / 2) }

/-! ## Quality Gate (`services/quality_assurance.py`) -/

/-- `ValidationResult` (`quality_assurance.py` lines 16-20). -/
inductive ValidationResult where
  | valid | warning | invalid
deriving DecidableEq, Repr

/-- `QualityCheck` (lines 23-30). -/
structure QualityCheck where
  check_name : String
  result : ValidationResult
  score : ℚ
  message : String
  suggestions : List String
deriving DecidableEq, Repr

/-- The `AnalysisResult` dataclass as the quality gate consumes it
(`table_analysis.py` lines 32-49): the validators use its declared field
types (strings, a string list, a float confidence). -/
structure AnalysisResult where
  table_id : String
  table_name : String
  category : AnalysisCategory
  priority : String
  issue_type : String
  description : String
  recommendation : String
  impact : String
  effort : String
  estimated_improvement : String
  implementation_steps : List String
  confidence_score : ℚ
deriving DecidableEq, Repr

/-- Stand-in for CPython's `str(float)` used only inside human-readable check
messages; no theorem below depends on its exact rendering. -/
def floatRepr (q : ℚ) : String := toString q

def minConfidenceThreshold : ℚ := 0.5

def minDescriptionLength : ℕ := 20

def minRecommendationLength : ℕ := 30

def requiredImplementationSteps : ℕ := 1

def effortPatterns : List String := ["low", "medium", "high"]

/-- `quality_weights` (lines 47-53) plus the `.get(check_name, 0.1)` default
of `_calculate_result_quality_score` (line 621): `category_alignment` is not
in the table and therefore gets the default weight `0.1`. -/
def qualityWeight (checkName : String) : ℚ :=
  if checkName = "confidence_score" then 0.3
  else if checkName = "content_quality" then 0.25
  else if checkName = "actionability" then 0.2
  else if checkName = "specificity" then 0.15
  else if checkName = "consistency" then 0.1
  else 0.1

/-- `re.search(r'\d+%|\d+x|...')`-style helper: some decimal digit occurs
immediately before `c`. -/
def hasDigitBefore (c : Char) : List Char → Bool
  | a :: b :: rest => (a.isDigit && b = c) || hasDigitBefore c (b :: rest)
  | _ => false

/-- Some occurrence of `pat` is followed immediately by a decimal digit
(`pat\d+`). -/
def seqThenImmDigit (pat : List Char) : List Char → Bool
  | [] => false
  | l@(_ :: rest) =>
    (charPrefix l pat &&
      (match l.drop pat.length with
       | d :: _ => d.isDigit
       | [] => false)) || seqThenImmDigit pat rest

/-- Some occurrence of `pat` is followed, on the same line (`.` does not match
a newline), by a decimal digit (`pat.*\d+`). -/
def seqThenDigit (pat : List Char) : List Char → Bool
  | [] => false
  | l@(_ :: rest) =>
    (charPrefix l pat && ((l.drop pat.length).takeWhile (fun c => c ≠ '\n')).any Char.isDigit)
      || seqThenDigit pat rest

/-- `re.search(r'\d+%|\d+x|reduce|increase|improve', s)` (line 238). -/
def hasMetricsRe (s : String) : Bool :=
  hasDigitBefore '%' s.data || hasDigitBefore 'x' s.data ||
  pyIn "reduce" s || pyIn "increase" s || pyIn "improve" s

/-- `re.search(r'table|field|column|record', s)` (line 330). -/
def hasTableRefsRe (s : String) : Bool :=
  pyIn "table" s || pyIn "field" s || pyIn "column" s || pyIn "record" s

/-- `re.search(r'\d+%|\d+x|by \d+|reduce.*\d+|increase.*\d+', s)` (line 343). -/
def hasQuantificationRe (s : String) : Bool :=
  hasDigitBefore '%' s.data || hasDigitBefore 'x' s.data ||
  seqThenImmDigit "by ".data s.data ||
  seqThenDigit "reduce".data s.data || seqThenDigit "increase".data s.data

def vagueWords : List String :=
  ["maybe", "possibly", "might", "could be", "perhaps", "potentially"]

def actionWords : List String :=
  ["create", "add", "remove", "update", "modify", "implement", "configure", "set up", "change"]

def specificTerms : List String :=
  ["field", "table", "view", "formula", "relationship", "validation", "automation"]

def genericPhrases : List String :=
  ["improve performance", "better organization", "optimize structure", "enhance quality"]

/-- `category_keywords` of `_validate_specificity` (lines 348-355); the
`.get(category, [])` default applies to the two unlisted categories. -/
def specificityCategoryKeywords : AnalysisCategory → List String
  | .structure' => ["field", "organization", "layout", "grouping"]
  | .normalization => ["normalize", "relationship", "redundancy", "dependency"]
  | .field_types => ["type", "format", "validation", "constraint"]
  | .relationships => ["link", "lookup", "rollup", "reference"]
  | .performance => ["speed", "load", "query", "index"]
  | .data_quality => ["validation", "consistency", "accuracy", "completeness"]
  | _ => []

/-- `QualityAssuranceService._validate_confidence_score` (lines 183-210). -/
def validateConfidenceScore (result : AnalysisResult) : QualityCheck :=
  let score := result.confidence_score
  if 0.8 ≤ score then
    { check_name := "confidence_score", result := .valid, score := 1,
      message := "High confidence score", suggestions := [] }
  else if minConfidenceThreshold ≤ score then
    { check_name := "confidence_score", result := .warning, score := 0.7,
      message := "Moderate confidence score: " ++ floatRepr score,
      suggestions := ["Consider requesting more specific analysis", "Validate with domain expert"] }
  else
    { check_name := "confidence_score", result := .invalid, score := 0.3,
      message := "Low confidence score: " ++ floatRepr score,
      suggestions := ["Re-run analysis with different prompt", "Provide more context",
        "Use different model"] }

/-- `QualityAssuranceService._validate_content_quality` (lines 212-267). -/
def validateContentQuality (result : AnalysisResult) : QualityCheck :=
  let descShort := (pyStrip result.description).length < minDescriptionLength
  let recShort := (pyStrip result.recommendation).length < minRecommendationLength
  let descriptionLower := strLower result.description
  let recommendationLower := strLower result.recommendation
  let vagueCount :=
    (vagueWords.filter (fun w => pyIn w descriptionLower || pyIn w recommendationLower)).length
  let tooVague := 2 < vagueCount
  let hasMetrics := hasMetricsRe (strLower result.recommendation)
  let score : ℚ := 1 - (if descShort then 0.3 else 0) - (if recShort then 0.3 else 0)
    - (if tooVague then 0.2 else 0) - (if hasMetrics then 0 else 0.1)
  let score := max 0 score
  let issues := (if descShort then ["Description too short or empty"] else [])
    ++ (if recShort then ["Recommendation too short or empty"] else [])
    ++ (if tooVague then ["Too much vague language"] else [])
  if 0.8 ≤ score then
    { check_name := "content_quality", result := .valid, score := score,
      message := "Good content quality", suggestions := [] }
  else if 0.5 ≤ score then
    { check_name := "content_quality", result := .warning, score := score,
      message := "Content quality issues: " ++ String.intercalate ", " issues,
      suggestions := ["Add more specific details", "Include quantified benefits",
        "Reduce vague language"] }
  else
    { check_name := "content_quality", result := .invalid, score := score,
      message := "Poor content quality: " ++ String.intercalate ", " issues,
      suggestions := ["Completely revise analysis", "Provide more context",
        "Use more specific prompts"] }

/-- `QualityAssuranceService._validate_actionability` (lines 269-322). -/
def validateActionability (result : AnalysisResult) : QualityCheck :=
  let recommendationLower := strLower result.recommendation
  let missingSteps := result.implementation_steps.length < requiredImplementationSteps
  let hasActionWords := actionWords.any (fun w => pyIn w recommendationLower)
  let badEffort := !(effortPatterns.contains result.effort)
  let hasSpecificTerms := specificTerms.any (fun w => pyIn w recommendationLower)
  let score : ℚ := 1 - (if missingSteps then 0.4 else 0)
    - (if hasActionWords then 0 else 0.3) - (if badEffort then 0.2 else 0)
    - (if hasSpecificTerms then 0 else 0.1)
  let score := max 0 score
  let issues := (if missingSteps then ["Missing or insufficient implementation steps"] else [])
    ++ (if hasActionWords then [] else ["Recommendation lacks clear action words"])
    ++ (if badEffort then ["Invalid effort estimation"] else [])
  if 0.8 ≤ score then
    { check_name := "actionability", result := .valid, score := score,
      message := "Highly actionable recommendation", suggestions := [] }
  else if 0.5 ≤ score then
    { check_name := "actionability", result := .warning, score := score,
      message := "Actionability issues: " ++ String.intercalate ", " issues,
      suggestions := ["Add specific implementation steps", "Include clear action items",
        "Specify tools or methods"] }
  else
    { check_name := "actionability", result := .invalid, score := score,
      message := "Poor actionability: " ++ String.intercalate ", " issues,
      suggestions := ["Rewrite with specific actions", "Add detailed implementation plan",
        "Focus on concrete steps"] }

/-- `QualityAssuranceService._validate_specificity` (lines 324-387). -/
def validateSpecificity (result : AnalysisResult) : QualityCheck :=
  let descriptionLower := strLower result.description
  let recommendationLower := strLower result.recommendation
  let hasTableRefs := hasTableRefsRe descriptionLower
  let genericCount := (genericPhrases.filter (fun p => pyIn p recommendationLower)).length
  let tooGeneric := 1 < genericCount
  let hasQuantification := hasQuantificationRe result.estimated_improvement
  let missingQuant := ¬hasQuantification ∧ result.estimated_improvement ≠ ""
  let hasCategoryKeywords :=
    (specificityCategoryKeywords result.category).any (fun k => pyIn k descriptionLower)
  let score : ℚ := 1 - (if hasTableRefs then 0 else 0.3) - (if tooGeneric then 0.2 else 0)
    - (if missingQuant then 0.2 else 0) - (if hasCategoryKeywords then 0 else 0.2)
  let score := max 0 score
  let issues := (if hasTableRefs then [] else ["Lacks specific table/field references"])
    ++ (if tooGeneric then ["Too many generic phrases"] else [])
  if 0.8 ≤ score then
    { check_name := "specificity", result := .valid, score := score,
      message := "Highly specific analysis", suggestions := [] }
  else if 0.5 ≤ score then
    { check_name := "specificity", result := .warning, score := score,
      message := "Specificity issues: " ++ String.intercalate ", " issues,
      suggestions := ["Add specific table/field names", "Include quantified benefits",
        "Use category-specific terminology"] }
  else
    { check_name := "specificity", result := .invalid, score := score,
      message := "Poor specificity: " ++ String.intercalate ", " issues,
      suggestions := ["Complete rewrite with specific details", "Focus on concrete elements",
        "Avoid generic language"] }

/-- `category_specific_checks` of `_validate_consistency` (lines 416-420). -/
def consistencyCategoryTerms : AnalysisCategory → Option (List String)
  | .performance => some ["performance", "speed", "optimization", "efficiency"]
  | .data_quality => some ["quality", "validation", "consistency", "accuracy"]
  | .relationships => some ["relationship", "link", "reference", "connection"]
  | _ => none

/-- `QualityAssuranceService._validate_consistency` (lines 389-454). -/
def validateConsistency (result : AnalysisResult) : QualityCheck :=
  let impactLower := strLower result.impact
  let weakImpact := result.priority = "high" ∧ result.effort = "high" ∧
    ¬(pyIn "critical" impactLower) ∧ ¬(pyIn "significant" impactLower)
  let lowConfidence := result.priority = "high" ∧ result.confidence_score < 0.7
  let stepCount := result.implementation_steps.length
  let lowEffortManySteps := result.effort = "low" ∧ 3 < stepCount
  let highEffortFewSteps := ¬lowEffortManySteps ∧ result.effort = "high" ∧ stepCount < 2
  let content := strLower (result.description ++ " " ++ result.recommendation)
  let misaligned :=
    match consistencyCategoryTerms result.category with
    | some terms => !(terms.any (fun t => pyIn t content))
    | none => false
  let score : ℚ := 1 - (if weakImpact then 0.2 else 0) - (if lowConfidence then 0.2 else 0)
    - (if lowEffortManySteps then 0.2 else 0) - (if highEffortFewSteps then 0.2 else 0)
    - (if misaligned then 0.3 else 0)
  let score := max 0 score
  let issues :=
    (if weakImpact then ["High priority/effort needs stronger impact justification"] else [])
    ++ (if lowConfidence then ["High priority recommendation should have higher confidence"]
        else [])
    ++ (if lowEffortManySteps then ["Low effort claim inconsistent with many implementation steps"]
        else [])
    ++ (if highEffortFewSteps then ["High effort claim inconsistent with few implementation steps"]
        else [])
    ++ (if misaligned then
          ["Content doesn't align with " ++ result.category.value ++ " category"] else [])
  if 0.8 ≤ score then
    { check_name := "consistency", result := .valid, score := score,
      message := "Internally consistent analysis", suggestions := [] }
  else if 0.5 ≤ score then
    { check_name := "consistency", result := .warning, score := score,
      message := "Consistency issues: " ++ String.intercalate ", " issues,
      suggestions := ["Align priority with confidence", "Match effort with implementation complexity",
        "Ensure category alignment"] }
  else
    { check_name := "consistency", result := .invalid, score := score,
      message := "Poor consistency: " ++ String.intercalate ", " issues,
      suggestions := ["Review all fields for alignment", "Revise priority/effort balance",
        "Ensure category-content match"] }

/-- Keyword lists of the six per-category alignment validators
(lines 480-610). -/
def alignmentTerms : AnalysisCategory → Option (List String)
  | .structure' =>
    some ["field", "organization", "layout", "grouping", "structure", "design", "schema"]
  | .normalization =>
    some ["normalize", "redundancy", "dependency", "relationship", "split", "separate", "duplicate"]
  | .field_types =>
    some ["field type", "validation", "format", "constraint", "data type", "single line",
      "long text", "number", "date"]
  | .relationships =>
    some ["relationship", "link", "lookup", "rollup", "reference", "connection", "foreign key"]
  | .performance =>
    some ["performance", "speed", "optimization", "efficiency", "load time", "query", "index",
      "slow"]
  | .data_quality =>
    some ["quality", "validation", "consistency", "accuracy", "completeness", "integrity",
      "clean", "standardize"]
  | _ => none

/-- The per-category alignment verdict sentence fragments. -/
def alignmentName : AnalysisCategory → String
  | .structure' => "structure"
  | .normalization => "normalization"
  | .field_types => "field types"
  | .relationships => "relationships"
  | .performance => "performance"
  | .data_quality => "data quality"
  | c => c.value

/-- `QualityAssuranceService._validate_category_alignment` (lines 456-610):
dispatch to the six per-category validators, or the generic warning for the
two categories without one. -/
def validateCategoryAlignment (result : AnalysisResult) : QualityCheck :=
  match alignmentTerms result.category with
  | some terms =>
    let content := strLower (result.description ++ " " ++ result.recommendation)
    if terms.any (fun t => pyIn t content) then
      { check_name := "category_alignment", result := .valid, score := 1,
        message := "Well-aligned with " ++ alignmentName result.category ++ " category",
        suggestions := [] }
    else
      { check_name := "category_alignment", result := .warning, score := 0.5,
        message := "Weak alignment with " ++ alignmentName result.category ++ " category",
        suggestions := ["Focus on category-specific improvements"] }
  | none =>
    { check_name := "category_alignment", result := .warning, score := 0.7,
      message := "No specific validator for category " ++ result.category.value,
      suggestions := ["Manually review category alignment"] }

/-- `QualityAssuranceService.validate_analysis_result` (lines 55-85): the six
checks, in source order. -/
def validateAnalysisResult (result : AnalysisResult) : List QualityCheck :=
  [validateConfidenceScore result,
   validateContentQuality result,
   validateActionability result,
   validateSpecificity result,
   validateConsistency result,
   validateCategoryAlignment result]

/-- `QualityAssuranceService._calculate_result_quality_score` (lines 612-625). -/
def calculateResultQualityScore (qualityChecks : List QualityCheck) : ℚ :=
  if qualityChecks.isEmpty then 0
  else
    let weightedScore :=
      qualityChecks.foldl (fun acc c => acc + c.score * qualityWeight c.check_name) 0
    let totalWeight := qualityChecks.foldl (fun acc c => acc + qualityWeight c.check_name) 0
    if 0 < totalWeight then weightedScore / totalWeight else 0

/-- Python `min(checks, key=lambda c: c.score)` starting from a first element:
the first element of minimal score wins. -/
def pyMin (c : QualityCheck) (cs : List QualityCheck) : QualityCheck :=
  cs.foldl (fun best c' => if c'.score < best.score then c' else best) c

/-- Entries of the `filtered_results` lists: the source appends the original
`AnalysisResult` object (`plain`); a dict carrying the `quality_warning` key
(line 146) would be a `flagged` entry. -/
inductive FilteredEntry where
  | plain (analysis : AnalysisResult)
  | flagged (analysis : AnalysisResult) (quality_warning : String)
deriving DecidableEq, Repr

structure BatchStatistics where
  total_analyses : ℕ := 0
  valid_analyses : ℕ := 0
  warning_analyses : ℕ := 0
  invalid_analyses : ℕ := 0
deriving DecidableEq, Repr

structure QualityIssue where
  table_id : String
  category : AnalysisCategory
  issue : String
  analysis_preview : String
deriving DecidableEq, Repr

structure BatchValidationSummary where
  overall_quality_score : ℚ
  table_scores : List (String × ℚ)
  category_scores : List (String × ℚ)
  quality_issues : List QualityIssue
  recommendations : List String
  filtered_results : List (String × List (AnalysisCategory × List FilteredEntry))
  statistics : BatchStatistics

/-- Accumulator mirroring the mutable parts of `validation_summary` plus the
local `all_scores`/`category_scores` lists of `validate_batch_results`. -/
structure BatchLoopState where
  statistics : BatchStatistics := {}
  all_scores : List ℚ := []
  category_scores : AnalysisCategory → List ℚ := fun _ => []
  quality_issues : List QualityIssue := []
  table_scores : List (String × ℚ) := []
  filtered_results : List (String × List (AnalysisCategory × List FilteredEntry)) := []

/-- Placeholder for `min` over an empty check list (where Python would raise);
`validate_analysis_result` always returns six checks, so it is never used. -/
def unreachableCheck : QualityCheck :=
  { check_name := "", result := .valid, score := 0, message := "", suggestions := [] }

/-- The body of the innermost loop of `validate_batch_results`
(lines 125-155) for one analysis.  Note the warning branch (lines 142-147):
the source builds `analysis.to_dict()` and sets its `quality_warning` key, but
then appends the *original* `analysis` object, so the flagged dict is
discarded and a `plain` entry is appended. -/
def analysisStep (tableId : String) (category : AnalysisCategory)
    (s : BatchLoopState × List QualityCheck × List FilteredEntry)
    (analysis : AnalysisResult) : BatchLoopState × List QualityCheck × List FilteredEntry :=
  let st := s.1
  let tableChecks := s.2.1
  let categoryFiltered := s.2.2
  let st := { st with statistics :=
    { st.statistics with total_analyses := st.statistics.total_analyses + 1 } }
  let qualityChecks := validateAnalysisResult analysis
  let tableChecks := tableChecks ++ qualityChecks
  let resultScore := calculateResultQualityScore qualityChecks
  let st := { st with
    all_scores := st.all_scores ++ [resultScore],
    category_scores := fun c =>
      if c = category then st.category_scores c ++ [resultScore] else st.category_scores c }
  let worst :=
    match qualityChecks with
    | [] => unreachableCheck
    | c :: cs => pyMin c cs
  if worst.result = .valid then
    ({ st with statistics :=
        { st.statistics with valid_analyses := st.statistics.valid_analyses + 1 } },
     tableChecks, categoryFiltered ++ [.plain analysis])
  else if worst.result = .warning then
    ({ st with statistics :=
        { st.statistics with warning_analyses := st.statistics.warning_analyses + 1 } },
     tableChecks, categoryFiltered ++ [.plain analysis])
  else
    ({ st with
        statistics :=
          { st.statistics with invalid_analyses := st.statistics.invalid_analyses + 1 },
        quality_issues := st.quality_issues ++
          [{ table_id := tableId, category := category, issue := worst.message,
             analysis_preview := strTake analysis.description 100 }] },
     tableChecks, categoryFiltered)

/-- The per-category loop body (lines 122-158). -/
def categoryStep (tableId : String)
    (s : BatchLoopState × List QualityCheck × List (AnalysisCategory × List FilteredEntry))
    (entry : AnalysisCategory × List AnalysisResult) :
    BatchLoopState × List QualityCheck × List (AnalysisCategory × List FilteredEntry) :=
  let category := entry.1
  let inner := entry.2.foldl (analysisStep tableId category) (s.1, s.2.1, [])
  let tableFiltered :=
    if inner.2.2.isEmpty then s.2.2 else s.2.2 ++ [(category, inner.2.2)]
  (inner.1, inner.2.1, tableFiltered)

/-- The per-table loop body (lines 118-165). -/
def tableStep (st : BatchLoopState)
    (entry : String × List (AnalysisCategory × List AnalysisResult)) : BatchLoopState :=
  let tableId := entry.1
  let res := entry.2.foldl (categoryStep tableId) (st, [], [])
  let st := res.1
  let tableChecks := res.2.1
  let tableFiltered := res.2.2
  let st :=
    if tableChecks.isEmpty then st
    else { st with table_scores := st.table_scores ++
      [(tableId, (tableChecks.map QualityCheck.score).sum / tableChecks.length)] }
  { st with filtered_results := st.filtered_results ++ [(tableId, tableFiltered)] }

/-- `QualityAssuranceService._generate_quality_recommendations`
(lines 627-648). -/
def generateQualityRecommendations (overallScore : ℚ) (stats : BatchStatistics)
    (categoryScores : List (String × ℚ)) : List String :=
  (if overallScore < 0.6 then
    ["Overall analysis quality is below acceptable threshold. Consider refining prompts."]
   else [])
  ++ (if (stats.total_analyses : ℚ) * 0.1 < (stats.invalid_analyses : ℚ) then
    ["High number of invalid analyses. Review prompt engineering and model parameters."]
   else [])
  ++ (if (stats.total_analyses : ℚ) * 0.3 < (stats.warning_analyses : ℚ) then
    ["Many analyses have quality warnings. Consider post-processing improvements."]
   else [])
  ++ (categoryScores.filterMap (fun cs =>
    if cs.2 < 0.5 then
      some ("Poor quality in " ++ cs.1 ++ " analysis. Review category-specific prompts.")
    else none))

/-- `QualityAssuranceService.validate_batch_results` (lines 87-181). -/
def validateBatchResults
    (results : List (String × List (AnalysisCategory × List AnalysisResult))) :
    BatchValidationSummary :=
  let st := results.foldl tableStep {}
  let overall :=
    if st.all_scores.isEmpty then 0 else st.all_scores.sum / st.all_scores.length
  let categoryScores := allAnalysisCategories.filterMap (fun cat =>
    let scores := st.category_scores cat
    if scores.isEmpty then none
    else some (cat.value, scores.sum / scores.length))
  { overall_quality_score := overall,
    table_scores := st.table_scores,
    category_scores := categoryScores,
    quality_issues := st.quality_issues,
    recommendations := generateQualityRecommendations overall st.statistics categoryScores,
    filtered_results := st.filtered_results,
    statistics := st.statistics }

/-! ## Workflow job state machine (`routes/workflow.py`) -/

/-- The five status strings stored in `workflow_jobs[...]["status"]`. -/
inductive WorkflowStatus where
  | pending | running | completed | failed | cancelled
deriving DecidableEq, Repr

def WorkflowStatus.value : WorkflowStatus → String
  | .pending => "pending"
  | .running => "running"
  | .completed => "completed"
  | .failed => "failed"
  | .cancelled => "cancelled"

/-- The spec's terminal states. -/
def WorkflowStatus.isTerminal : WorkflowStatus → Bool
  | .completed => true
  | .failed => true
  | .cancelled => true
  | _ => false

/-- The `progress` sub-dict; `completed`/`total` carry whatever
`results.get(...)` returned, hence `Json`. -/
structure WorkflowProgress where
  phase : String
  completed : Json
  total : Json

/-- One entry of the `workflow_jobs` registry (`workflow.py` lines 69-76).
Timestamps are opaque strings (`datetime.utcnow().isoformat()`). -/
structure WorkflowJob where
  workflow_id : String
  status : WorkflowStatus
  progress : WorkflowProgress
  results : Option (List (String × Json)) := none
  error : Option String := none
  started_at : String
  updated_at : String

/-- The job record created by `start_complete_workflow` (lines 69-76). -/
def startCompleteWorkflowJob (workflowId : String) (now : String) : WorkflowJob :=
  { workflow_id := workflowId, status := .pending,
    progress := { phase := "initializing", completed := .num 0, total := .num 0 },
    started_at := now, updated_at := now }

/-- `cancel_workflow` (lines 162-175) acting on the addressed job (the 404
path for an unknown id is outside this model).  In the pending/running branch
the status is assigned, and then the `updated_at` line raises `NameError`:
`datetime` is imported only locally inside other functions of the module,
never at module level, so the endpoint errors out *after* mutating the
status.  In the other branch the job is untouched and the explanatory message
is returned. -/
def cancelWorkflow (job : WorkflowJob) : WorkflowJob × Except PyError String :=
  if job.status = .pending ∨ job.status = .running then
    ({ job with status := .cancelled },
     .error { message := "name 'datetime' is not defined", typeName := "NameError" })
  else
    (job, .ok ("Workflow is " ++ job.status.value ++ " and cannot be cancelled"))

/-- The opening writes of the background task `_run_complete_workflow`
(lines 276-280): unconditionally marks the job running. -/
def workflowTaskStart (now : String) (job : WorkflowJob) : WorkflowJob :=
  { job with
    status := .running,
    progress := { phase := "starting", completed := .num 0, total := .num 1 },
    updated_at := now }

/-- The closing writes of `_run_complete_workflow` (lines 307-327): on a clean
orchestrator result the job is unconditionally marked completed; on an
unhandled exception it is unconditionally marked failed.  Neither write
inspects the current status. -/
def workflowTaskFinish (outcome : Except PyError (List (String × Json))) (now : String)
    (job : WorkflowJob) : WorkflowJob :=
  match outcome with
  | .ok results =>
    { job with
      status := .completed,
      results := some results,
      progress := { phase := "completed",
                    completed := jsonGet results "tables_analyzed" (.num 0),
                    total := jsonGet results "tables_discovered" (.num 0) },
      updated_at := now }
  | .error e =>
    { job with status := .failed, error := some e.message, updated_at := now }

/-- The whole background task as start-then-finish; a cancellation request may
interleave between the two at any `await` point. -/
def runCompleteWorkflowTask (outcome : Except PyError (List (String × Json)))
    (startNow finishNow : String) (job : WorkflowJob) : WorkflowJob :=
  workflowTaskFinish outcome finishNow (workflowTaskStart startNow job)

/-! ## Theorems -/

/-! ### C7 — retry backoff -/

/-- C7 (counterexample): the claim as stated is false on the code.  Within one
`execute_with_fallback` call with attempt numbers 6 < 7 the delay is *not*
strictly larger at attempt 7: the backoff is capped, and both delays equal
`max_delay = 30.0`. -/
theorem C7_counterexample :
    calculateRetryDelay 6 = retryMaxDelay ∧ calculateRetryDelay 7 = retryMaxDelay ∧
    ¬ calculateRetryDelay 6 < calculateRetryDelay 7 := by
  refine ⟨?_, ?_, ?_⟩ <;>
    norm_num [calculateRetryDelay, retryBaseDelay, retryMaxDelay, retryBackoffMultiplier]

/-- C7 (amended): the retry delay never exceeds `max_delay`; it is monotone
non-decreasing in the attempt number, strictly increasing as long as the
uncapped exponential `base_delay * multiplier^(attempt-1)` is still within
`max_delay` (attempts 1..5 with the defaults), and constant at `max_delay =
30.0` from attempt 6 on. -/
theorem C7_backoff_monotone_capped :
    (∀ n : ℕ, calculateRetryDelay n ≤ retryMaxDelay) ∧
    (∀ n m : ℕ, n ≤ m → calculateRetryDelay n ≤ calculateRetryDelay m) ∧
    (∀ n m : ℕ, 1 ≤ n → n < m →
      retryBaseDelay * retryBackoffMultiplier ^ (m - 1) ≤ retryMaxDelay →
      calculateRetryDelay n < calculateRetryDelay m) ∧
    (∀ n : ℕ, 6 ≤ n → calculateRetryDelay n = retryMaxDelay) := by
  refine ⟨fun n => min_le_right _ _, fun n m h => ?_, fun n m h1 h2 hcap => ?_, fun n h6 => ?_⟩
  · exact min_le_min (by
      simp only [retryBaseDelay, one_mul]
      exact pow_le_pow_right₀ (by norm_num [retryBackoffMultiplier])
        (Nat.sub_le_sub_right h 1)) le_rfl
  · have hpow : retryBackoffMultiplier ^ (n - 1) < retryBackoffMultiplier ^ (m - 1) :=
      pow_lt_pow_right₀ (by norm_num [retryBackoffMultiplier]) (by omega)
    have hm : calculateRetryDelay m = retryBaseDelay * retryBackoffMultiplier ^ (m - 1) :=
      min_eq_left hcap
    calc calculateRetryDelay n ≤ retryBaseDelay * retryBackoffMultiplier ^ (n - 1) :=
          min_le_left _ _
      _ < retryBaseDelay * retryBackoffMultiplier ^ (m - 1) := by
          simp only [retryBaseDelay, one_mul]; exact hpow
      _ = calculateRetryDelay m := hm.symm
  · have h32 : retryMaxDelay ≤ retryBaseDelay * retryBackoffMultiplier ^ (n - 1) := by
      have hp : retryBackoffMultiplier ^ (5 : ℕ) ≤ retryBackoffMultiplier ^ (n - 1) :=
        pow_le_pow_right₀ (by norm_num [retryBackoffMultiplier]) (by omega)
      simp only [retryBaseDelay, retryBackoffMultiplier, retryMaxDelay, one_mul] at hp ⊢
      norm_num at hp ⊢
      linarith
    exact min_eq_right h32

/-- Witness for C7 (amended) at concrete attempt numbers. -/
theorem C7_backoff_monotone_capped_witness :
    calculateRetryDelay 2 ≤ retryMaxDelay ∧
    calculateRetryDelay 1 < calculateRetryDelay 2 ∧
    calculateRetryDelay 6 = retryMaxDelay :=
  ⟨C7_backoff_monotone_capped.1 2,
   C7_backoff_monotone_capped.2.2.1 1 2 (by norm_num) (by norm_num)
     (by norm_num [retryBaseDelay, retryBackoffMultiplier, retryMaxDelay]),
   C7_backoff_monotone_capped.2.2.2 6 (by norm_num)⟩

/-! ### C10 — `estimate_batch_cost` -/

/-- Every per-category cost heuristic is a multiple of `1/200`. -/
theorem categoryCosts_scaled (c : AnalysisCategory) :
    ∃ j : ℕ, categoryCosts c = (j : ℚ) / 200 := by
  cases c
  · exact ⟨4, by norm_num [categoryCosts]⟩
  · exact ⟨5, by norm_num [categoryCosts]⟩
  · exact ⟨3, by norm_num [categoryCosts]⟩
  · exact ⟨6, by norm_num [categoryCosts]⟩
  · exact ⟨4, by norm_num [categoryCosts]⟩
  · exact ⟨4, by norm_num [categoryCosts]⟩
  · exact ⟨2, by norm_num [categoryCosts]⟩
  · exact ⟨3, by norm_num [categoryCosts]⟩

/-- The summed category costs are a multiple of `1/200`. -/
theorem sumCosts_scaled (cats : List AnalysisCategory) :
    ∃ k : ℕ, (cats.map categoryCosts).sum = (k : ℚ) / 200 := by
  induction cats with
  | nil => exact ⟨0, by simp⟩
  | cons c cs ih =>
    obtain ⟨k, hk⟩ := ih
    obtain ⟨j, hj⟩ := categoryCosts_scaled c
    exact ⟨j + k, by push_cast [List.map_cons, List.sum_cons, hk, hj]; ring⟩

theorem sumCosts_nonneg (cats : List AnalysisCategory) :
    0 ≤ (cats.map categoryCosts).sum := by
  obtain ⟨k, hk⟩ := sumCosts_scaled cats
  rw [hk]
  positivity

/-- `round(x, 4)` is the identity whenever `x * 10⁴` is an integer — in
particular on every value `estimate_batch_cost` rounds. -/
theorem round4_eq_self (x : ℚ) (z : ℤ) (h : x * 10000 = (z : ℚ)) : round4 x = x := by
  simp only [round4, h, Int.floor_intCast, sub_self]
  rw [if_pos (by norm_num : (0 : ℚ) < 1 / 2)]
  rw [eq_comm, eq_div_iff (by norm_num : (10000 : ℚ) ≠ 0)]
  exact h

/-- Closed form of `estimate_batch_cost` for a positive table count. -/
theorem estimateBatchCost_ok (n : ℕ) (hn : n ≠ 0) (cats : Option (List AnalysisCategory)) :
    estimateBatchCost n cats = .ok
      { estimated_total_cost := ((cats.getD allAnalysisCategories).map categoryCosts).sum * n,
        cost_per_table := ((cats.getD allAnalysisCategories).map categoryCosts).sum,
        categories_count := (cats.getD allAnalysisCategories).length,
        table_count := n,
        estimated_time_minutes :=
          (n : ℚ) * (cats.getD allAnalysisCategories).length * (1 / 2) } := by
  obtain ⟨k, hk⟩ := sumCosts_scaled (cats.getD allAnalysisCategories)
  have hn' : (n : ℚ) ≠ 0 := Nat.cast_ne_zero.mpr hn
  have h1 : round4 (((cats.getD allAnalysisCategories).map categoryCosts).sum * n) =
      ((cats.getD allAnalysisCategories).map categoryCosts).sum * n := by
    refine round4_eq_self _ ((k : ℤ) * n * 50) ?_
    rw [hk]; push_cast; ring
  have h2 : (((cats.getD allAnalysisCategories).map categoryCosts).sum * n) / n =
      ((cats.getD allAnalysisCategories).map categoryCosts).sum :=
    mul_div_cancel_right₀ _ hn'
  have h3 : round4 (((cats.getD allAnalysisCategories).map categoryCosts).sum) =
      ((cats.getD allAnalysisCategories).map categoryCosts).sum := by
    refine round4_eq_self _ ((k : ℤ) * 50) ?_
    rw [hk]; push_cast; ring
  simp only [estimateBatchCost, hn, if_false, h1, h2, h3]

/-- C10: `estimate_batch_cost` returns normally for every `table_count ≥ 1`
and any category list, with non-negative cost and time figures; the estimated
total is monotone in the table count and in the category list; with
`table_count = 0` the `cost_per_table` division raises `ZeroDivisionError`;
and the error branch is unreachable exactly under `table_count ≥ 1`. -/
theorem C10_estimate_batch_cost :
    (∀ (n : ℕ) (cats : Option (List AnalysisCategory)), 1 ≤ n →
      ∃ out, estimateBatchCost n cats = .ok out ∧
        0 ≤ out.estimated_total_cost ∧ 0 ≤ out.cost_per_table ∧
        0 ≤ out.estimated_time_minutes) ∧
    (∀ (n n' : ℕ) (cats : Option (List AnalysisCategory)) (out out' : BatchCostEstimate),
      estimateBatchCost n cats = .ok out → estimateBatchCost n' cats = .ok out' →
      n ≤ n' → out.estimated_total_cost ≤ out'.estimated_total_cost) ∧
    (∀ (n : ℕ) (cats cats' : List AnalysisCategory) (out out' : BatchCostEstimate),
      cats.Sublist cats' →
      estimateBatchCost n (some cats) = .ok out →
      estimateBatchCost n (some cats') = .ok out' →
      out.estimated_total_cost ≤ out'.estimated_total_cost) ∧
    (∀ cats, estimateBatchCost 0 cats =
      .error { message := "float division by zero", typeName := "ZeroDivisionError" }) ∧
    (∀ (n : ℕ) (cats : Option (List AnalysisCategory)),
      (∃ out, estimateBatchCost n cats = .ok out) ↔ 1 ≤ n) := by
  have hzero : ∀ cats, estimateBatchCost 0 cats =
      .error { message := "float division by zero", typeName := "ZeroDivisionError" } := by
    intro cats
    simp [estimateBatchCost]
  have hok : ∀ (n : ℕ) (cats : Option (List AnalysisCategory)), 1 ≤ n →
      ∃ out, estimateBatchCost n cats = .ok out ∧
        0 ≤ out.estimated_total_cost ∧ 0 ≤ out.cost_per_table ∧
        0 ≤ out.estimated_time_minutes := by
    intro n cats hn
    refine ⟨_, estimateBatchCost_ok n (by omega) cats, ?_, ?_, ?_⟩
    · exact mul_nonneg (sumCosts_nonneg _) (by positivity)
    · exact sumCosts_nonneg _
    · positivity
  refine ⟨hok, ?_, ?_, hzero, ?_⟩
  · intro n n' cats out out' h h' hle
    have hn : n ≠ 0 := by
      intro h0; subst h0; rw [hzero] at h; exact absurd h (by simp)
    have hn' : n' ≠ 0 := by
      intro h0; subst h0; rw [hzero] at h'; exact absurd h' (by simp)
    rw [estimateBatchCost_ok n hn cats] at h
    rw [estimateBatchCost_ok n' hn' cats] at h'
    injection h with h; injection h' with h'
    rw [← h, ← h']
    exact mul_le_mul_of_nonneg_left (by exact_mod_cast hle) (sumCosts_nonneg _)
  · intro n cats cats' out out' hsub h h'
    have hn : n ≠ 0 := by
      intro h0; subst h0; rw [hzero] at h; exact absurd h (by simp)
    rw [estimateBatchCost_ok n hn (some cats)] at h
    rw [estimateBatchCost_ok n hn (some cats')] at h'
    injection h with h; injection h' with h'
    rw [← h, ← h']
    refine mul_le_mul_of_nonneg_right ?_ (by positivity)
    exact List.Sublist.sum_le_sum (hsub.map categoryCosts)
      (fun a ha => by
        obtain ⟨c, _, rfl⟩ := List.mem_map.mp ha
        obtain ⟨j, hj⟩ := categoryCosts_scaled c
        rw [hj]; positivity)
  · intro n cats
    constructor
    · rintro ⟨out, hout⟩
      rcases Nat.eq_zero_or_pos n with h0 | h1
      · subst h0; rw [hzero] at hout; exact absurd hout (by simp)
      · exact h1
    · intro hn
      obtain ⟨out, hout, -⟩ := hok n cats hn
      exact ⟨out, hout⟩

/-- Witness for C10 at concrete inputs: ten tables over the default (all
eight) categories succeed with non-negative figures, and zero tables hit the
division error. -/
theorem C10_estimate_batch_cost_witness :
    (∃ out, estimateBatchCost 10 none = .ok out ∧
      0 ≤ out.estimated_total_cost ∧ 0 ≤ out.cost_per_table ∧
      0 ≤ out.estimated_time_minutes) ∧
    estimateBatchCost 0 none =
      .error { message := "float division by zero", typeName := "ZeroDivisionError" } :=
  ⟨C10_estimate_batch_cost.1 10 none (by norm_num),
   C10_estimate_batch_cost.2.2.2.1 none⟩

/-! ### C3 — error classification and retryability -/

theorem charPrefix_iff (l pat : List Char) : charPrefix l pat = true ↔ pat <+: l := by
  induction pat generalizing l with
  | nil => simp [charPrefix]
  | cons p ps ih =>
    cases l with
    | nil => simp [charPrefix]
    | cons c cs =>
      simp only [charPrefix, Bool.and_eq_true, decide_eq_true_eq, ih,
        List.cons_prefix_cons]
      exact ⟨fun ⟨h1, h2⟩ => ⟨h1.symm, h2⟩, fun ⟨h1, h2⟩ => ⟨h1.symm, h2⟩⟩

theorem charContains_iff (s pat : List Char) : charContains s pat = true ↔ pat <:+: s := by
  induction s with
  | nil => simp [charContains, charPrefix_iff]
  | cons c cs ih =>
    simp only [charContains, Bool.or_eq_true, charPrefix_iff, ih]
    exact (List.infix_cons_iff).symm

theorem pyIn_iff (pat s : String) : pyIn pat s = true ↔ pat.data <:+: s.data :=
  charContains_iff s.data pat.data

/-- Containment survives `str.lower()` for a case-stable pattern. -/
theorem pyIn_strLower_of_pyIn (pat s : String)
    (hfix : pat.data.map Char.toLower = pat.data) (h : pyIn pat s = true) :
    pyIn pat (strLower s) = true := by
  rw [pyIn_iff] at h ⊢
  have hmap := h.map Char.toLower
  rw [hfix] at hmap
  exact hmap

theorem pyIn_of_infix (p q s : String) (hpq : p.data <:+: q.data) (h : pyIn q s = true) :
    pyIn p s = true := by
  rw [pyIn_iff] at h ⊢
  exact hpq.trans h

/-- The invocation list accumulated by the retry loop only ever grows. -/
theorem ewfLoop_invoked_append (operation : ℕ → Except PyError α) (ctx : ErrorContext)
    (now : ℚ) (attempts : List ℕ) :
    ∀ st le inv, ∃ tail, (ewfLoop operation ctx now attempts st le inv).2.2 = inv ++ tail := by
  induction attempts with
  | nil => intro st le inv; exact ⟨[], by simp [ewfLoop]⟩
  | cons a rest ih =>
    intro st le inv
    simp only [ewfLoop]
    split
    · exact ⟨[], by simp⟩
    · split
      · exact ⟨[a], rfl⟩
      · split
        · obtain ⟨tail, htail⟩ := ih _ _ (inv ++ [a])
          exact ⟨[a] ++ tail, by rw [htail, List.append_assoc]⟩
        · exact ⟨[a], rfl⟩

/-- If the circuit check came back closed, re-checking on the state it
returned still comes back closed, with the state unchanged. -/
theorem isCircuitOpen_false_again (cbs : Breakers) (operation : String) (now : ℚ)
    (h : (isCircuitOpen cbs operation now).1 = false) :
    (isCircuitOpen (isCircuitOpen cbs operation now).2 operation now).1 = false := by
  unfold isCircuitOpen at h ⊢
  cases hcb : cbs operation with
  | none => simp [hcb]
  | some c =>
    simp only [hcb] at h ⊢
    by_cases ho : c.is_open
    · simp only [ho, Bool.not_true] at h ⊢
      by_cases ht : now - c.opened_at > c.timeout
      · simp only [ht, if_true, if_false]
        simp [setBreaker]
      · simp [ht] at h
    · simp only [Bool.not_eq_true'] at ho
      simp [ho, hcb]

/-- One loop iteration with the circuit closed, a failing attempt, remaining
attempts and a retryable error: the loop records the error and retries. -/
theorem ewfLoop_retry_step (operation : ℕ → Except PyError α) (ctx : ErrorContext)
    (now : ℚ) (a : ℕ) (rest : List ℕ) (st : FTState) (le : Option PyError)
    (inv : List ℕ) (e : PyError)
    (hcirc : (isCircuitOpen st.breakers ctx.operation now).1 = false)
    (hop : operation a = .error e) (hrest : rest.isEmpty = false)
    (hretry : shouldRetry e = true) :
    ewfLoop operation ctx now (a :: rest) st le inv =
      ewfLoop operation ctx now rest
        (recordError { st with breakers := (isCircuitOpen st.breakers ctx.operation now).2 }
          e { ctx with attempt_number := a } now)
        (some e) (inv ++ [a]) := by
  simp only [ewfLoop, hop]
  rw [if_neg (by simp [hcirc])]
  rw [if_pos (by simp [hrest, hretry])]

/-- One loop iteration with the circuit closed invokes the operation: the
final invocation list extends `inv ++ [a]`. -/
theorem ewfLoop_invokes_head (operation : ℕ → Except PyError α) (ctx : ErrorContext)
    (now : ℚ) (a : ℕ) (rest : List ℕ) (st : FTState) (le : Option PyError) (inv : List ℕ)
    (hcirc : (isCircuitOpen st.breakers ctx.operation now).1 = false) :
    ∃ tail, (ewfLoop operation ctx now (a :: rest) st le inv).2.2 = (inv ++ [a]) ++ tail := by
  simp only [ewfLoop]
  rw [if_neg (by simp [hcirc])]
  rcases hop : operation a with e | r
  · simp only [hop]
    split
    · exact ewfLoop_invoked_append operation ctx now rest _ _ _
    · exact ⟨[], by simp⟩
  · simp only [hop]
    exact ⟨[], by simp⟩

/-- The invocation list returned by `execute_with_fallback` is the loop's. -/
theorem executeWithFallback_invoked (st : FTState) (operation : ℕ → Except PyError α)
    (ctx : ErrorContext) (fallbackStrategy : String) (now : ℚ) :
    (executeWithFallback st operation ctx fallbackStrategy now).2.2 =
      (ewfLoop operation ctx now (List.range' 1 ctx.max_attempts) st none []).2.2 := by
  unfold executeWithFallback
  rcases ewfLoop operation ctx now (List.range' 1 ctx.max_attempts) st none [] with
    ⟨exit, st', inv⟩
  cases exit <;> rfl

/-- C3 (amended): classification is by ordered keyword matching with
`timeout` tested first (over both message and type name), then
`rate`/`quota`/`limit`, then `auth`/`unauthorized`/`forbidden`.  Hence:
a message containing `"timeout"` always classifies as TIMEOUT; one containing
`"rate limit"` classifies as API_LIMIT provided no timeout keyword matches;
one containing `"unauthorized"` classifies as AUTHENTICATION provided no
earlier branch matches, and such an error is never retried; every error whose
category is neither AUTHENTICATION nor VALIDATION is retryable, and when the
first attempt fails with such an error and at least one attempt remains (the
circuit being closed), the operation is invoked again at attempt 2. -/
theorem C3_classification_and_retry :
    (∀ e : PyError, pyIn "timeout" e.message = true → categorizeError e = .timeout) ∧
    (∀ e : PyError, pyIn "rate limit" e.message = true →
      pyIn "timeout" (strLower e.message) = false →
      pyIn "timeout" (strLower e.typeName) = false →
      categorizeError e = .api_limit) ∧
    (∀ e : PyError, pyIn "unauthorized" e.message = true →
      pyIn "timeout" (strLower e.message) = false →
      pyIn "timeout" (strLower e.typeName) = false →
      pyIn "rate" (strLower e.message) = false →
      pyIn "quota" (strLower e.message) = false →
      pyIn "limit" (strLower e.message) = false →
      categorizeError e = .authentication ∧ shouldRetry e = false) ∧
    (∀ e : PyError, categorizeError e ≠ .authentication →
      categorizeError e ≠ .validation → shouldRetry e = true) ∧
    (∀ (α : Type) (st : FTState) (operation : ℕ → Except PyError α) (ctx : ErrorContext)
      (fallbackStrategy : String) (now : ℚ) (e : PyError),
      (isCircuitOpen st.breakers ctx.operation now).1 = false →
      operation 1 = .error e → shouldRetry e = true → 2 ≤ ctx.max_attempts →
      2 ∈ (executeWithFallback st operation ctx fallbackStrategy now).2.2) := by
  refine ⟨?_, ?_, ?_, ?_, ?_⟩
  · intro e h
    have h1 : pyIn "timeout" (strLower e.message) = true :=
      pyIn_strLower_of_pyIn _ _ (by decide) h
    simp [categorizeError, h1]
  · intro e h ht1 ht2
    have hrl : pyIn "rate limit" (strLower e.message) = true :=
      pyIn_strLower_of_pyIn _ _ (by decide) h
    have hr : pyIn "rate" (strLower e.message) = true :=
      pyIn_of_infix _ _ _ (by decide) hrl
    simp [categorizeError, ht1, ht2, hr]
  · intro e h ht1 ht2 hr hq hl
    have hun : pyIn "unauthorized" (strLower e.message) = true :=
      pyIn_strLower_of_pyIn _ _ (by decide) h
    have ha : pyIn "auth" (strLower e.message) = true :=
      pyIn_of_infix _ _ _ (by decide) hun
    have hcat : categorizeError e = .authentication := by
      simp [categorizeError, ht1, ht2, hr, hq, hl, ha]
    exact ⟨hcat, by simp [shouldRetry, hcat]⟩
  · intro e h1 h2
    unfold shouldRetry
    rcases hcat : categorizeError e <;> simp [hcat] at h1 h2 ⊢
  · intro α st operation ctx fallbackStrategy now e hcirc hop1 hretry hmax
    rw [executeWithFallback_invoked]
    have hr : List.range' 1 ctx.max_attempts =
        1 :: 2 :: List.range' 3 (ctx.max_attempts - 2) := by
      obtain ⟨k, hk⟩ : ∃ k, ctx.max_attempts = k + 2 := ⟨ctx.max_attempts - 2, by omega⟩
      rw [hk]
      simp [List.range', Nat.add_sub_cancel]
    rw [hr]
    rw [ewfLoop_retry_step operation ctx now 1 _ st none [] e hcirc hop1 (by simp) hretry]
    have hcirc2 :
        (isCircuitOpen
          (recordError { st with breakers := (isCircuitOpen st.breakers ctx.operation now).2 }
            e { ctx with attempt_number := 1 } now).breakers ctx.operation now).1 = false :=
      isCircuitOpen_false_again st.breakers ctx.operation now hcirc
    obtain ⟨tail, htail⟩ :=
      ewfLoop_invokes_head operation ctx now 2 (List.range' 3 (ctx.max_attempts - 2)) _
        (some e) ([] ++ [1]) hcirc2
    rw [htail]
    simp

/-- C3 (counterexample): the claim as stated is false — the message
`"rate limit timeout"` contains `"rate limit"` but classifies as TIMEOUT, not
API_LIMIT, because the timeout keyword is tested first. -/
theorem C3_counterexample :
    pyIn "rate limit" "rate limit timeout" = true ∧
    categorizeError { message := "rate limit timeout", typeName := "Exception" } =
      .timeout ∧
    categorizeError { message := "rate limit timeout", typeName := "Exception" } ≠
      .api_limit := by
  refine ⟨by decide, by decide, by decide⟩

/-- Witness for C3 (amended) at concrete errors. -/
theorem C3_classification_and_retry_witness :
    categorizeError { message := "request timeout", typeName := "Exception" } = .timeout ∧
    categorizeError { message := "rate limit exceeded", typeName := "Exception" } =
      .api_limit ∧
    (categorizeError { message := "unauthorized", typeName := "Exception" } =
      .authentication ∧
     shouldRetry { message := "unauthorized", typeName := "Exception" } = false) ∧
    shouldRetry { message := "boom", typeName := "Exception" } = true ∧
    2 ∈ (executeWithFallback initFTState
          (fun _ => (.error { message := "boom", typeName := "Exception" } :
            Except PyError ℕ))
          { operation := "analysis" } "simplified" 0).2.2 :=
  ⟨C3_classification_and_retry.1 _ (by decide),
   C3_classification_and_retry.2.1 _ (by decide) (by decide) (by decide),
   C3_classification_and_retry.2.2.1 _ (by decide) (by decide) (by decide) (by decide)
     (by decide) (by decide),
   C3_classification_and_retry.2.2.2.1 _ (by decide) (by decide),
   C3_classification_and_retry.2.2.2.2 ℕ initFTState _ _ "simplified" 0
     { message := "boom", typeName := "Exception" } (by decide) rfl (by decide)
     (by decide)⟩

/-! ### C1 — circuit breaker -/

/-- A run of consecutive recorded failures for one operation name: one
`_update_circuit_breaker` call per failing `execute_with_fallback` call, at
the given times. -/
def recordFailures (cbs : Breakers) (operation : String) (ts : List ℚ) : Breakers :=
  ts.foldl (fun cbs t => updateCircuitBreaker cbs operation t) cbs

/-- Recording failures below the threshold only bumps the counter. -/
theorem recordFailures_closed (operation : String) :
    ∀ (ts : List ℚ) (cbs : Breakers) (c : CircuitBreaker),
      cbs operation = some c → c.threshold = 5 → c.is_open = false →
      c.failure_count + ts.length < 5 →
      recordFailures cbs operation ts operation =
        some { c with failure_count := c.failure_count + ts.length } := by
  intro ts
  induction ts with
  | nil =>
    intro cbs c hc _ _ _
    simpa [recordFailures] using hc
  | cons t ts ih =>
    intro cbs c hc hth hio hcount
    have hupd : updateCircuitBreaker cbs operation t operation =
        some { c with failure_count := c.failure_count + 1 } := by
      simp only [updateCircuitBreaker, hc, Option.getD_some]
      rw [if_neg (by simp only [hth]; simp at hcount ⊢; omega)]
      simp [setBreaker]
    have hstep : recordFailures cbs operation (t :: ts) =
        recordFailures (updateCircuitBreaker cbs operation t) operation ts := rfl
    rw [hstep, ih (updateCircuitBreaker cbs operation t)
      { c with failure_count := c.failure_count + 1 } hupd hth hio
      (by simp at hcount ⊢; omega)]
    simp only [Option.some.injEq, CircuitBreaker.mk.injEq, List.length_cons,
      eq_self_iff_true, and_true]
    omega

/-- An open circuit within its timeout window reports open without touching
the breaker map. -/
theorem isCircuitOpen_of_open (cbs : Breakers) (operation : String) (now : ℚ)
    (c : CircuitBreaker) (hc : cbs operation = some c) (ho : c.is_open = true)
    (hle : now - c.opened_at ≤ c.timeout) :
    isCircuitOpen cbs operation now = (true, cbs) := by
  simp only [isCircuitOpen, hc]
  rw [if_neg (by simp [ho]), if_neg (not_lt.mpr hle)]

/-- C1: (i) starting from no record, `k < 5` consecutive recorded failures
leave the circuit closed with failure count `k`, and the 5th (threshold)
recorded failure opens it, stamping the opening time; (ii) while the circuit
for the operation is open and the open-timeout has not elapsed, any
`execute_with_fallback` call for that operation invokes the wrapped operation
at no attempt (empty invocation list), leaves the service state unchanged,
and returns exactly the fallback-stage outcome. -/
theorem C1_circuit_breaker :
    (∀ (cbs : Breakers) (operation : String) (ts : List ℚ), cbs operation = none →
      1 ≤ ts.length → ts.length < 5 →
      recordFailures cbs operation ts operation =
        some { failure_count := ts.length, is_open := false, opened_at := 0, timeout := 60,
               threshold := 5, half_open := false }) ∧
    (∀ (cbs : Breakers) (operation : String) (ts : List ℚ) (t5 : ℚ),
      cbs operation = none → ts.length = 4 →
      recordFailures cbs operation (ts ++ [t5]) operation =
        some { failure_count := 5, is_open := true, opened_at := t5, timeout := 60,
               threshold := 5, half_open := false }) ∧
    (∀ (α : Type) (st : FTState) (operation : ℕ → Except PyError α) (ctx : ErrorContext)
       (fallbackStrategy : String) (now : ℚ) (c : CircuitBreaker),
      st.breakers ctx.operation = some c → c.is_open = true →
      now - c.opened_at ≤ c.timeout →
      executeWithFallback st operation ctx fallbackStrategy now =
        (fallbackOutcome ctx fallbackStrategy none, st, [])) := by
  have hfirst : ∀ (cbs : Breakers) (operation : String) (t : ℚ), cbs operation = none →
      updateCircuitBreaker cbs operation t operation =
        some { failure_count := 1, is_open := false, opened_at := 0, timeout := 60,
               threshold := 5, half_open := false } := by
    intro cbs operation t hnone
    simp only [updateCircuitBreaker, hnone, Option.getD_none]
    rw [if_neg (by simp)]
    simp [setBreaker]
  have hbelow : ∀ (cbs : Breakers) (operation : String) (ts : List ℚ),
      cbs operation = none → 1 ≤ ts.length → ts.length < 5 →
      recordFailures cbs operation ts operation =
        some { failure_count := ts.length, is_open := false, opened_at := 0, timeout := 60,
               threshold := 5, half_open := false } := by
    intro cbs operation ts hnone h1 h5
    cases ts with
    | nil => simp at h1
    | cons t ts' =>
      have hstep : recordFailures cbs operation (t :: ts') =
          recordFailures (updateCircuitBreaker cbs operation t) operation ts' := rfl
      rw [hstep, recordFailures_closed operation ts' _ _
        (hfirst cbs operation t hnone) rfl rfl (by simp at h5 ⊢; omega)]
      simp only [Option.some.injEq, CircuitBreaker.mk.injEq, List.length_cons,
        eq_self_iff_true, and_true]
      omega
  refine ⟨hbelow, ?_, ?_⟩
  · intro cbs operation ts t5 hnone hlen
    have happ : recordFailures cbs operation (ts ++ [t5]) =
        updateCircuitBreaker (recordFailures cbs operation ts) operation t5 := by
      simp [recordFailures, List.foldl_append]
    rw [happ]
    have h4 := hbelow cbs operation ts hnone (by omega) (by omega)
    rw [hlen] at h4
    simp only [updateCircuitBreaker, h4, Option.getD_some]
    rw [if_pos (by simp)]
    simp [setBreaker]
  · intro α st operation ctx fallbackStrategy now c hc ho hle
    have hopen := isCircuitOpen_of_open st.breakers ctx.operation now c hc ho hle
    unfold executeWithFallback
    cases hattempts : List.range' 1 ctx.max_attempts with
    | nil => simp [ewfLoop]
    | cons a rest =>
      simp only [ewfLoop, hopen]
      rfl

/-- Witness for C1: five recorded failures open the circuit (opened at time
4), and a later call (time 10, within the 60s window) with an operation that
*would* succeed never invokes it and returns the fallback-stage outcome. -/
theorem C1_circuit_breaker_witness :
    recordFailures (fun _ => none) "analysis" [0, 1, 2, 3, 4] "analysis" =
      some { failure_count := 5, is_open := true, opened_at := 4, timeout := 60,
             threshold := 5, half_open := false } ∧
    executeWithFallback
      { error_records := [], error_patterns := fun _ => 0,
        breakers := recordFailures (fun _ => none) "analysis" [0, 1, 2, 3, 4] }
      (fun _ => (.ok 7 : Except PyError ℕ)) { operation := "analysis" } "simplified" 10 =
      (fallbackOutcome { operation := "analysis" } "simplified" none,
       { error_records := [], error_patterns := fun _ => 0,
         breakers := recordFailures (fun _ => none) "analysis" [0, 1, 2, 3, 4] }, []) := by
  have h5 := C1_circuit_breaker.2.1 (fun _ => none) "analysis" [0, 1, 2, 3] 4 rfl rfl
  refine ⟨h5, ?_⟩
  exact C1_circuit_breaker.2.2 ℕ _ _ { operation := "analysis" } "simplified" 10
    { failure_count := 5, is_open := true, opened_at := 4, timeout := 60,
      threshold := 5, half_open := false } h5 rfl (by norm_num)

/-! ### C2 — `execute_with_fallback` with the "simplified" strategy -/

/-- With an operation failing at every attempt, the retry loop always exits
through the exhausted path. -/
theorem ewfLoop_all_fail (operation : ℕ → Except PyError α) (ctx : ErrorContext) (now : ℚ)
    (hop : ∀ k, ∃ e, operation k = .error e) :
    ∀ (attempts : List ℕ) (st : FTState) (le : Option PyError) (inv : List ℕ),
      ∃ le' st' inv',
        ewfLoop operation ctx now attempts st le inv = (.exhausted le', st', inv') := by
  intro attempts
  induction attempts with
  | nil =>
    intro st le inv
    exact ⟨le, st, inv, rfl⟩
  | cons a rest ih =>
    intro st le inv
    obtain ⟨e, he⟩ := hop a
    simp only [ewfLoop, he]
    split
    · exact ⟨le, _, inv, rfl⟩
    · split
      · exact ih _ _ _
      · exact ⟨some e, _, _, rfl⟩

/-- C2 (behavior at the failing input): for every operation that raises on
every attempt, `execute_with_fallback(..., fallback_strategy="simplified")`
does **not** return a fallback result: it propagates the `AttributeError`
raised inside `SimplifiedAnalysisFallback._assess_severity` by the
nonexistent enum member `ErrorCategory.CRITICAL` (and the basic-fallback
rescue path raises the same error again, uncaught). -/
theorem C2_simplified_fallback_raises (α : Type) (st : FTState)
    (operation : ℕ → Except PyError α) (ctx : ErrorContext) (now : ℚ)
    (hop : ∀ k, ∃ e, operation k = .error e) :
    (executeWithFallback st operation ctx "simplified" now).1 =
      .raised (some { message := "CRITICAL", typeName := "AttributeError" }) := by
  unfold executeWithFallback
  obtain ⟨le', st', inv', heq⟩ :=
    ewfLoop_all_fail operation ctx now hop (List.range' 1 ctx.max_attempts) st none []
  rw [heq]
  rfl

/-- Witness for C2 at a concrete always-failing operation. -/
theorem C2_simplified_fallback_raises_witness :
    (executeWithFallback initFTState
      (fun _ => (.error { message := "boom", typeName := "Exception" } : Except PyError ℕ))
      { operation := "analysis" } "simplified" 0).1 =
      .raised (some { message := "CRITICAL", typeName := "AttributeError" }) :=
  C2_simplified_fallback_raises ℕ initFTState _ { operation := "analysis" } 0
    (fun _ => ⟨{ message := "boom", typeName := "Exception" }, rfl⟩)

/-! ### C8 — batch failure isolation -/

def Json.isObj : Json → Bool
  | .obj _ => true
  | _ => false

theorem toBatches_flatten (bs : ℕ) (l : List α) : (toBatches bs l).flatten = l := by
  suffices H : ∀ (n : ℕ) (l : List α), l.length = n → (toBatches bs l).flatten = l from
    H l.length l rfl
  intro n
  induction n using Nat.strong_induction_on with
  | _ n ih =>
    intro l hl
    cases l with
    | nil => simp [toBatches]
    | cons x xs =>
      rw [toBatches]
      rw [List.flatten_cons]
      rw [ih (((x :: xs).drop (max bs 1)).length) (by
        have h1 : 1 ≤ max bs 1 := Nat.le_max_right bs 1
        simp only [List.length_drop, List.length_cons] at hl ⊢
        omega) _ rfl]
      exact List.take_append_drop _ _

/-- `analyze_tables_batch` is the straight fold over all tables: batching only
groups the gather joins. -/
theorem analyzeTablesBatch_foldl (analyze : TableMetadata → Except PyError ρ)
    (tables : List TableMetadata) (batchSize : ℕ) :
    analyzeTablesBatch analyze tables batchSize =
      tables.foldl
        (fun results t =>
          match analyze t with
          | .ok r => assocSet results t.table_id r
          | .error _ => results) [] := by
  unfold analyzeTablesBatch
  conv_rhs => rw [← toBatches_flatten batchSize tables]
  rw [List.foldl_flatten]

/-- The batch fold over distinct-id tables appends one entry per succeeding
table in order. -/
theorem batch_foldl_filterMap (analyze : TableMetadata → Except PyError ρ) :
    ∀ (tables : List TableMetadata) (acc : List (String × ρ)),
      (∀ t ∈ tables, ∀ kv ∈ acc, kv.1 ≠ t.table_id) →
      (tables.map TableMetadata.table_id).Nodup →
      tables.foldl
        (fun results t =>
          match analyze t with
          | .ok r => assocSet results t.table_id r
          | .error _ => results) acc =
        acc ++ tables.filterMap (fun t =>
          match analyze t with
          | .ok r => some (t.table_id, r)
          | .error _ => none) := by
  intro tables
  induction tables with
  | nil => intro acc _ _; simp
  | cons t ts ih =>
    intro acc hdis hnd
    simp only [List.foldl_cons, List.filterMap_cons]
    rcases hat : analyze t with e | r
    · simp only [hat]
      rw [ih acc (fun t' ht' kv hkv => hdis t' (List.mem_cons_of_mem _ ht') kv hkv)
        (by simpa using hnd.of_cons)]
    · simp only [hat]
      have hset : assocSet acc t.table_id r = acc ++ [(t.table_id, r)] := by
        have hfind : acc.find? (fun kv => kv.1 = t.table_id) = none := by
          apply List.find?_eq_none.mpr
          intro kv hkv
          simpa using hdis t (List.mem_cons_self t ts) kv hkv
        simp [assocSet, hfind]
      rw [hset, ih (acc ++ [(t.table_id, r)]) ?_ (by simpa using hnd.of_cons)]
      · simp
      · intro t' ht' kv hkv
        rcases List.mem_append.mp hkv with h | h
        · exact hdis t' (List.mem_cons_of_mem _ ht') kv h
        · simp only [List.mem_singleton] at h
          subst h
          simp only
          intro habs
          have hmem : t'.table_id ∈ ts.map TableMetadata.table_id :=
            List.mem_map_of_mem _ ht'
          rw [← habs] at hmem
          simp only [List.map_cons, List.nodup_cons] at hnd
          exact hnd.1 hmem

/-- Key list of the successful entries matches the non-failing tables. -/
theorem filterMap_keys (analyze : TableMetadata → Except PyError ρ) (t0id : String) :
    ∀ tables : List TableMetadata,
      (∀ t ∈ tables, (∃ r, analyze t = .ok r) ↔ t.table_id ≠ t0id) →
      (tables.filterMap (fun t =>
        match analyze t with
        | .ok r => some (t.table_id, r)
        | .error _ => none)).map Prod.fst =
        (tables.filter (fun t => t.table_id ≠ t0id)).map TableMetadata.table_id := by
  intro tables
  induction tables with
  | nil => intro _; simp
  | cons t ts ih =>
    intro h
    have ht := h t (List.mem_cons_self t ts)
    by_cases hid : t.table_id = t0id
    · rcases hat : analyze t with e | r
      · simp only [List.filterMap_cons, hat, List.filter_cons]
        rw [if_neg (by simp [hid])]
        exact ih (fun t' ht' => h t' (List.mem_cons_of_mem _ ht'))
      · exact absurd hid (ht.mp ⟨r, hat⟩)
    · obtain ⟨r, hat⟩ := ht.mpr hid
      simp only [List.filterMap_cons, hat, List.filter_cons]
      rw [if_pos (by simp [hid])]
      simp only [List.map_cons]
      rw [ih (fun t' ht' => h t' (List.mem_cons_of_mem _ ht'))]

/-- Dropping the unique table with a given id shortens the list by one. -/
theorem filter_ne_length (t0id : String) :
    ∀ tables : List TableMetadata,
      (tables.map TableMetadata.table_id).count t0id = 1 →
      (tables.filter (fun t => t.table_id ≠ t0id)).length = tables.length - 1 := by
  intro tables
  induction tables with
  | nil => intro h; simp at h
  | cons t ts ih =>
    intro h
    simp only [List.map_cons, List.count_cons] at h
    by_cases hid : t.table_id = t0id
    · have hz : (ts.map TableMetadata.table_id).count t0id = 0 := by
        rw [if_pos (by simp [hid])] at h
        omega
      have hall : ∀ t' ∈ ts, t'.table_id ≠ t0id := by
        intro t' ht' habs
        have : t0id ∈ ts.map TableMetadata.table_id := by
          rw [← habs]; exact List.mem_map_of_mem _ ht'
        rw [← List.count_pos_iff] at this
        omega
      simp only [List.filter_cons]
      rw [if_neg (by simp [hid])]
      rw [List.filter_eq_self.mpr (by intro a ha; simpa using hall a ha)]
      simp
    · rw [if_neg (by simp [hid])] at h
      have hlen : 1 ≤ ts.length := by
        by_contra hlt
        have : ts = [] := by
          cases ts with
          | nil => rfl
          | cons a as => simp at hlt
        rw [this] at h
        simp at h
      simp only [List.filter_cons]
      rw [if_pos (by simp [hid])]
      simp only [List.length_cons]
      rw [ih (by omega)]
      omega

/-- C8: in `analyze_tables_batch` over distinct-id tables where exactly one
table's analyzer raises, the returned map has an entry for exactly the
non-failing tables in order, the failing table's id is absent, and the result
has one entry fewer than the input (the exception is captured by the
`return_exceptions=True` gather and never propagates). -/
theorem C8_batch_failure_isolated (ρ : Type) (analyze : TableMetadata → Except PyError ρ)
    (tables : List TableMetadata) (batchSize : ℕ) (t₀ : TableMetadata) (err : PyError)
    (_hbs : 0 < batchSize)
    (hnd : (tables.map TableMetadata.table_id).Nodup)
    (hmem : t₀ ∈ tables)
    (hfail : analyze t₀ = .error err)
    (hok : ∀ t ∈ tables, t.table_id ≠ t₀.table_id → ∃ r, analyze t = .ok r) :
    (analyzeTablesBatch analyze tables batchSize).map Prod.fst =
      (tables.filter (fun t => t.table_id ≠ t₀.table_id)).map TableMetadata.table_id ∧
    t₀.table_id ∉ (analyzeTablesBatch analyze tables batchSize).map Prod.fst ∧
    (analyzeTablesBatch analyze tables batchSize).length = tables.length - 1 := by
  have huniq : ∀ t ∈ tables, t.table_id = t₀.table_id → t = t₀ := by
    intro t ht habs
    exact List.inj_on_of_nodup_map hnd ht hmem habs
  have hiff : ∀ t ∈ tables, (∃ r, analyze t = .ok r) ↔ t.table_id ≠ t₀.table_id := by
    intro t ht
    constructor
    · rintro ⟨r, hr⟩ habs
      rw [huniq t ht habs, hfail] at hr
      exact absurd hr (by simp)
    · exact hok t ht
  rw [analyzeTablesBatch_foldl,
    batch_foldl_filterMap analyze tables [] (by simp) hnd, List.nil_append]
  have hkeys := filterMap_keys analyze t₀.table_id tables hiff
  refine ⟨hkeys, ?_, ?_⟩
  · rw [hkeys]
    intro habs
    obtain ⟨t, htmem, hteq⟩ := List.mem_map.mp habs
    have := List.of_mem_filter htmem
    simp only [decide_eq_true_eq] at this
    exact this hteq
  · have hcount : (tables.map TableMetadata.table_id).count t₀.table_id = 1 :=
      List.count_eq_one_of_mem hnd (List.mem_map_of_mem _ hmem)
    have hlen := filter_ne_length t₀.table_id tables hcount
    have hlenmap := congrArg List.length hkeys
    simp only [List.length_map] at hlenmap
    exact hlenmap.trans hlen

/-- Concrete tables for the C8 witness. -/
def mkTable (id : String) : TableMetadata :=
  { base_id := "base", table_id := id, table_name := id }

/-- Witness for C8: ten tables, `batch_size = 3`, the analyzer of `"t4"`
raising — exactly nine entries, `"t4"` absent. -/
theorem C8_batch_failure_isolated_witness :
    (analyzeTablesBatch
        (fun t => if t.table_id = "t4"
          then (.error { message := "boom", typeName := "Exception" } : Except PyError ℕ)
          else .ok 0)
        ((["t1", "t2", "t3", "t4", "t5", "t6", "t7", "t8", "t9", "t10"]).map mkTable)
        3).map Prod.fst =
      (((["t1", "t2", "t3", "t4", "t5", "t6", "t7", "t8", "t9", "t10"]).map
        mkTable).filter (fun t => t.table_id ≠ "t4")).map TableMetadata.table_id ∧
    "t4" ∉ (analyzeTablesBatch
        (fun t => if t.table_id = "t4"
          then (.error { message := "boom", typeName := "Exception" } : Except PyError ℕ)
          else .ok 0)
        ((["t1", "t2", "t3", "t4", "t5", "t6", "t7", "t8", "t9", "t10"]).map mkTable)
        3).map Prod.fst ∧
    (analyzeTablesBatch
        (fun t => if t.table_id = "t4"
          then (.error { message := "boom", typeName := "Exception" } : Except PyError ℕ)
          else .ok 0)
        ((["t1", "t2", "t3", "t4", "t5", "t6", "t7", "t8", "t9", "t10"]).map mkTable)
        3).length =
      ((["t1", "t2", "t3", "t4", "t5", "t6", "t7", "t8", "t9", "t10"]).map mkTable).length
        - 1 :=
  C8_batch_failure_isolated ℕ _ _ 3 (mkTable "t4")
    { message := "boom", typeName := "Exception" }
    (by norm_num) (by decide)
    (List.mem_map_of_mem mkTable (by decide))
    (by rfl)
    (fun t _ hne => ⟨0, by simp only [mkTable] at hne; simp [hne]⟩)

/-! ### C9 — provider-response parsing -/

/-- The conversion the parse loop applies to one array element that is a JSON
object: a finding, unless the confidence conversion raises (then the element
is skipped). -/
def convFinding (tableData : TableMetadata) (category : AnalysisCategory) (j : Json) :
    Option RawFinding :=
  match j with
  | .obj kvs =>
    match pyFloat (jsonGet kvs "confidence_score" (.num (7 / 10))) with
    | .ok conf => some (mkRawFinding tableData category kvs conf)
    | .error _ => none
  | _ => none

/-- Modelled from the claim's wording ("one finding per well-formed array
element, skipping malformed elements"): the spec-side parse of a decoded
array, to be compared with the code's `processFindings`. -/
def claimParseFindings (tableData : TableMetadata) (category : AnalysisCategory)
    (js : List Json) : List RawFinding :=
  js.filterMap (convFinding tableData category)

/-- What the parse loop actually computes: per-element findings only when
*every* element is a JSON object; any non-object element aborts the whole
loop with an uncaught `AttributeError`, collapsing the result to `[]`. -/
theorem processFindings_eq (tableData : TableMetadata) (category : AnalysisCategory) :
    ∀ (js : List Json) (acc : List RawFinding),
      processFindings tableData category js acc =
        if js.all Json.isObj then acc ++ claimParseFindings tableData category js else [] := by
  intro js
  induction js with
  | nil => intro acc; simp [processFindings, claimParseFindings]
  | cons j js ih =>
    intro acc
    cases j with
    | obj kvs =>
      simp only [processFindings]
      rcases hconf : pyFloat (jsonGet kvs "confidence_score" (.num (7 / 10))) with e | c
      · simp only [hconf, ih]
        simp [claimParseFindings, convFinding, Json.isObj, List.all_cons, hconf]
      · simp only [hconf, ih]
        simp [claimParseFindings, convFinding, Json.isObj, List.all_cons, hconf]
    | null => simp [processFindings, Json.isObj]
    | bool b => simp [processFindings, Json.isObj]
    | num q => simp [processFindings, Json.isObj]
    | str s => simp [processFindings, Json.isObj]
    | arr l => simp [processFindings, Json.isObj]

/-- C9 (amended): `_parse_analysis_response` is a total function of the
response text.  If the text has no `'['` or no `']'`, or the extracted span
fails `json.loads`, it returns `[]`; if the span decodes to an array whose
elements are all JSON objects it returns one finding per object whose
`confidence_score` converts to float (objects whose conversion raises are
skipped); if any element is not an object the whole result collapses to `[]`
(the `AttributeError` at `finding.get` is not caught by the per-element
handler). -/
theorem C9_parse_total (tableData : TableMetadata) (category : AnalysisCategory)
    (text : String) :
    (pyFind text '[' = -1 ∨ pyRFind text ']' = -1 →
      parseAnalysisResponse tableData category text = []) ∧
    (∀ _h1 : pyFind text '[' ≠ -1, ∀ _h2 : pyRFind text ']' ≠ -1,
      jsonLoads (pySlice text (pyFind text '[').toNat ((pyRFind text ']') + 1).toNat) =
        none →
      parseAnalysisResponse tableData category text = []) ∧
    (∀ js, pyFind text '[' ≠ -1 → pyRFind text ']' ≠ -1 →
      jsonLoads (pySlice text (pyFind text '[').toNat ((pyRFind text ']') + 1).toNat) =
        some (.arr js) →
      parseAnalysisResponse tableData category text =
        (if js.all Json.isObj then claimParseFindings tableData category js else [])) := by
  refine ⟨?_, ?_, ?_⟩
  · intro h
    unfold parseAnalysisResponse
    rw [if_pos]
    rcases h with h | h
    · exact Or.inl h
    · exact Or.inr (by omega)
  · intro h1 h2 hload
    unfold parseAnalysisResponse
    rw [if_neg (by push_neg; exact ⟨h1, by omega⟩)]
    rw [hload]
  · intro js h1 h2 hload
    unfold parseAnalysisResponse
    rw [if_neg (by push_neg; exact ⟨h1, by omega⟩)]
    rw [hload]
    simp only [processFindings_eq, List.nil_append]

/-- Concrete table for the C9 theorems. -/
def c9Table : TableMetadata := { base_id := "app1", table_id := "tbl1", table_name := "T" }

/-- The response text `[{}, true]`: a valid JSON array with one object and one
non-object element. -/
def c9RespMixed : String := "[\x7b\x7d, true]"

/-- The response text `[{"confidence_score": "bad"}, {}]`: all elements are
objects; the first one's confidence does not convert to float. -/
def c9RespSkip : String := "[\x7b\"confidence_score\": \"bad\"\x7d, \x7b\x7d]"

/-- A response with no array span at all. -/
def c9RespNoArr : String := "no array here"

/-- A response whose extracted span is not valid JSON. -/
def c9RespBadJson : String := "[oops]"

/-- C9 (counterexample): on the response `"[{}, true]"` the span decodes to a
two-element array with one well-formed object element; the claim's
skip-malformed reading predicts one finding, but the code returns `[]` (the
non-object element raises an uncaught `AttributeError`). -/
theorem C9_counterexample :
    jsonLoads c9RespMixed = some (.arr [.obj [], .bool true]) ∧
    parseAnalysisResponse c9Table .structure' c9RespMixed = [] ∧
    claimParseFindings c9Table .structure' [.obj [], .bool true] =
      [mkRawFinding c9Table .structure' [] (7 / 10)] ∧
    parseAnalysisResponse c9Table .structure' c9RespMixed ≠
      claimParseFindings c9Table .structure' [.obj [], .bool true] := by
  refine ⟨rfl, rfl, rfl, ?_⟩
  intro h
  rw [show parseAnalysisResponse c9Table .structure' c9RespMixed = [] from rfl,
    show claimParseFindings c9Table .structure' [.obj [], .bool true] =
      [mkRawFinding c9Table .structure' [] (7 / 10)] from rfl] at h
  exact List.cons_ne_nil _ _ h.symm

/-- Witness for C9 (amended) at concrete responses: no array span; an
undecodable span; and an all-object array where one object's confidence is
unconvertible (skipped) and the other yields a default finding. -/
theorem C9_parse_total_witness :
    parseAnalysisResponse c9Table .structure' c9RespNoArr = [] ∧
    parseAnalysisResponse c9Table .structure' c9RespBadJson = [] ∧
    parseAnalysisResponse c9Table .structure' c9RespSkip =
      [mkRawFinding c9Table .structure' [] (7 / 10)] := by
  refine ⟨(C9_parse_total c9Table .structure' c9RespNoArr).1 (Or.inl (by decide)), ?_, ?_⟩
  · exact (C9_parse_total c9Table .structure' c9RespBadJson).2.1 (by decide) (by decide) (by rfl)
  · exact ((C9_parse_total c9Table .structure' c9RespSkip).2.2
      [.obj [("confidence_score", .str "bad")], .obj []]
      (by decide) (by decide)
      (by set_option maxRecDepth 100000 in rfl)).trans
      (by set_option maxRecDepth 100000 in rfl)

/-! ### C4 — workflow job state machine -/

/-- C4 (counterexample): a pending job is started (running), then cancelled —
a terminal state — and the background task finishing afterwards overwrites the
status with `completed`: a terminal state is left by a subsequent operation. -/
theorem C4_counterexample :
    (cancelWorkflow (workflowTaskStart "t1" (startCompleteWorkflowJob "wf" "t0"))).1.status =
      .cancelled ∧
    WorkflowStatus.isTerminal
      (cancelWorkflow (workflowTaskStart "t1"
        (startCompleteWorkflowJob "wf" "t0"))).1.status = true ∧
    (workflowTaskFinish (.ok []) "t2"
      (cancelWorkflow (workflowTaskStart "t1"
        (startCompleteWorkflowJob "wf" "t0"))).1).status = .completed ∧
    (WorkflowStatus.completed ≠ WorkflowStatus.cancelled) := by
  exact ⟨rfl, rfl, rfl, by decide⟩

/-- C4 (amended): a cancellation request against a job in any terminal state
(completed, failed, or cancelled) leaves the job unchanged and returns the
explanatory message; the job's own background task finishing, by contrast,
unconditionally overwrites the status with `completed` (clean result) or
`failed` (exception), even over `cancelled`. -/
theorem C4_terminal_states :
    (∀ job : WorkflowJob, job.status.isTerminal = true →
      cancelWorkflow job =
        (job, .ok ("Workflow is " ++ job.status.value ++ " and cannot be cancelled"))) ∧
    (∀ (job : WorkflowJob) (results : List (String × Json)) (now : String),
      (workflowTaskFinish (.ok results) now job).status = .completed) ∧
    (∀ (job : WorkflowJob) (e : PyError) (now : String),
      (workflowTaskFinish (.error e) now job).status = .failed) := by
  refine ⟨?_, fun _ _ _ => rfl, fun _ _ _ => rfl⟩
  intro job ht
  unfold cancelWorkflow
  rw [if_neg]
  rintro (h | h) <;> rw [h] at ht <;> simp [WorkflowStatus.isTerminal] at ht

/-- Witness for C4 (amended) at a concrete completed job. -/
theorem C4_terminal_states_witness :
    cancelWorkflow
      { workflow_id := "wf", status := .completed,
        progress := { phase := "completed", completed := .num 3, total := .num 3 },
        started_at := "t0", updated_at := "t1" } =
      ({ workflow_id := "wf", status := .completed,
         progress := { phase := "completed", completed := .num 3, total := .num 3 },
         started_at := "t0", updated_at := "t1" },
       .ok "Workflow is completed and cannot be cancelled") ∧
    (workflowTaskFinish (.ok [("tables_analyzed", .num 3)]) "t2"
      { workflow_id := "wf", status := .cancelled,
        progress := { phase := "starting", completed := .num 0, total := .num 1 },
        started_at := "t0", updated_at := "t1" }).status = .completed :=
  ⟨C4_terminal_states.1 _ rfl,
   C4_terminal_states.2.1 _ [("tables_analyzed", .num 3)] "t2"⟩

/-! ### C5 / C6 — quality gate evaluation -/

/-- A concrete finding whose worst check is the `warning` confidence check
(score 0.7) while the five other checks are `valid` with score 1. -/
def qaFinding : AnalysisResult :=
  { table_id := "tbl1", table_name := "Projects", category := .structure',
    priority := "medium", issue_type := "field_organization",
    description :=
      "The table has many fields that are not grouped; field organization is poor",
    recommendation :=
      "Create a new grouping to improve field layout and reduce clutter by 30%",
    impact := "Better usability",
    effort := "low",
    estimated_improvement := "30% fewer fields",
    implementation_steps := ["Group fields"],
    confidence_score := 0.6 }

theorem qaFinding_conf : (validateConfidenceScore qaFinding).score = 0.7 ∧
    (validateConfidenceScore qaFinding).result = .warning := by
  simp only [validateConfidenceScore]
  rw [if_neg (by norm_num [qaFinding]),
    if_pos (by norm_num [qaFinding, minConfidenceThreshold])]
  exact ⟨rfl, rfl⟩

theorem qaFinding_content : (validateContentQuality qaFinding).score = 1 := by
  simp only [validateContentQuality]
  rw [if_neg (show ¬((pyStrip qaFinding.description).length < minDescriptionLength)
      by decide),
    if_neg (show ¬((pyStrip qaFinding.recommendation).length < minRecommendationLength)
      by decide),
    if_neg (show ¬(2 < (vagueWords.filter (fun w =>
      pyIn w (strLower qaFinding.description) ||
      pyIn w (strLower qaFinding.recommendation))).length) by decide),
    if_pos (show hasMetricsRe (strLower qaFinding.recommendation) = true by decide)]
  simp only [sub_zero]
  rw [show ((0 : ℚ) ⊔ 1) = 1 from max_eq_right (by norm_num)]
  rw [if_pos (by norm_num : (0.8 : ℚ) ≤ 1)]

theorem qaFinding_action : (validateActionability qaFinding).score = 1 := by
  simp only [validateActionability]
  rw [if_neg (show ¬(qaFinding.implementation_steps.length < requiredImplementationSteps)
      by decide),
    if_pos (show (actionWords.any (fun w => pyIn w (strLower qaFinding.recommendation))) = true
      by decide),
    if_neg (show ¬((!(effortPatterns.contains qaFinding.effort)) = true) by decide),
    if_pos (show (specificTerms.any (fun w =>
      pyIn w (strLower qaFinding.recommendation))) = true by decide)]
  simp only [sub_zero]
  rw [show ((0 : ℚ) ⊔ 1) = 1 from max_eq_right (by norm_num)]
  rw [if_pos (by norm_num : (0.8 : ℚ) ≤ 1)]

theorem qaFinding_spec : (validateSpecificity qaFinding).score = 1 := by
  simp only [validateSpecificity]
  rw [if_pos (show hasTableRefsRe (strLower qaFinding.description) = true by decide),
    if_neg (show ¬(1 < (genericPhrases.filter (fun p =>
      pyIn p (strLower qaFinding.recommendation))).length) by decide),
    if_neg (show ¬(¬hasQuantificationRe qaFinding.estimated_improvement = true ∧
      qaFinding.estimated_improvement ≠ "") by decide),
    if_pos (show ((specificityCategoryKeywords qaFinding.category).any (fun k =>
      pyIn k (strLower qaFinding.description))) = true by decide)]
  simp only [sub_zero]
  rw [show ((0 : ℚ) ⊔ 1) = 1 from max_eq_right (by norm_num)]
  rw [if_pos (by norm_num : (0.8 : ℚ) ≤ 1)]

theorem qaFinding_consist : (validateConsistency qaFinding).score = 1 := by
  simp only [validateConsistency]
  rw [if_neg (show ¬(qaFinding.priority = "high" ∧ qaFinding.effort = "high" ∧
      ¬(pyIn "critical" (strLower qaFinding.impact)) ∧
      ¬(pyIn "significant" (strLower qaFinding.impact))) by decide),
    if_neg (show ¬(qaFinding.priority = "high" ∧ qaFinding.confidence_score < 0.7)
      by decide),
    if_neg (show ¬(qaFinding.effort = "low" ∧ 3 < qaFinding.implementation_steps.length)
      by decide),
    if_neg (show ¬(¬(qaFinding.effort = "low" ∧ 3 < qaFinding.implementation_steps.length) ∧
      qaFinding.effort = "high" ∧ qaFinding.implementation_steps.length < 2) by decide)]
  rw [show consistencyCategoryTerms qaFinding.category = none from rfl]
  simp only [Bool.false_eq_true, if_false, sub_zero]
  rw [show ((0 : ℚ) ⊔ 1) = 1 from max_eq_right (by norm_num)]
  rw [if_pos (by norm_num : (0.8 : ℚ) ≤ 1)]

theorem qaFinding_align : (validateCategoryAlignment qaFinding).score = 1 := by
  simp only [validateCategoryAlignment]
  rw [show alignmentTerms qaFinding.category =
    some ["field", "organization", "layout", "grouping", "structure", "design", "schema"]
    from rfl]
  simp only []
  rw [if_pos (by decide)]

theorem validateConfidenceScore_name (f : AnalysisResult) :
    (validateConfidenceScore f).check_name = "confidence_score" := by
  simp only [validateConfidenceScore]; split_ifs <;> rfl

theorem validateContentQuality_name (f : AnalysisResult) :
    (validateContentQuality f).check_name = "content_quality" := by
  simp only [validateContentQuality]; split_ifs <;> rfl

theorem validateActionability_name (f : AnalysisResult) :
    (validateActionability f).check_name = "actionability" := by
  simp only [validateActionability]; split_ifs <;> rfl

theorem validateSpecificity_name (f : AnalysisResult) :
    (validateSpecificity f).check_name = "specificity" := by
  simp only [validateSpecificity]; split_ifs <;> rfl

theorem validateConsistency_name (f : AnalysisResult) :
    (validateConsistency f).check_name = "consistency" := by
  simp only [validateConsistency]; split_ifs <;> rfl

theorem validateCategoryAlignment_name (f : AnalysisResult) :
    (validateCategoryAlignment f).check_name = "category_alignment" := by
  simp only [validateCategoryAlignment]
  cases h : alignmentTerms f.category
  · simp only [h]
  · simp only [h]
    split_ifs <;> rfl

/-- The closed form of `_calculate_result_quality_score` over the six checks:
the five configured weights plus the *default* weight 0.1 for
`category_alignment`, normalised by the total weight 1.1. -/
theorem calcScore_closed_form (f : AnalysisResult) :
    calculateResultQualityScore (validateAnalysisResult f) =
      (0.3 * (validateConfidenceScore f).score + 0.25 * (validateContentQuality f).score +
       0.2 * (validateActionability f).score + 0.15 * (validateSpecificity f).score +
       0.1 * (validateConsistency f).score +
       0.1 * (validateCategoryAlignment f).score) / 1.1 := by
  simp only [calculateResultQualityScore, validateAnalysisResult, List.isEmpty_cons,
    Bool.false_eq_true, if_false, List.foldl_cons, List.foldl_nil,
    validateConfidenceScore_name, validateContentQuality_name, validateActionability_name,
    validateSpecificity_name, validateConsistency_name, validateCategoryAlignment_name]
  rw [show qualityWeight "confidence_score" = (0.3 : ℚ) from rfl,
    show qualityWeight "content_quality" = (0.25 : ℚ) from rfl,
    show qualityWeight "actionability" = (0.2 : ℚ) from rfl,
    show qualityWeight "specificity" = (0.15 : ℚ) from rfl,
    show qualityWeight "consistency" = (0.1 : ℚ) from rfl,
    show qualityWeight "category_alignment" = (0.1 : ℚ) from rfl]
  rw [if_pos (by norm_num)]
  rw [show (0 : ℚ) + 0.3 + 0.25 + 0.2 + 0.15 + 0.1 + 0.1 = 1.1 by norm_num]
  ring

/-- C6 (amended): a finding's overall quality score equals the weighted sum of
all six check scores — the five configured weights and the default weight 0.1
picked up by `category_alignment` — divided by the total weight 1.1. -/
theorem C6_weighted_score (f : AnalysisResult) :
    calculateResultQualityScore (validateAnalysisResult f) =
      (0.3 * (validateConfidenceScore f).score + 0.25 * (validateContentQuality f).score +
       0.2 * (validateActionability f).score + 0.15 * (validateSpecificity f).score +
       0.1 * (validateConsistency f).score +
       0.1 * (validateCategoryAlignment f).score) / 1.1 :=
  calcScore_closed_form f

/-- Modelled from the claim's wording: the weighted mean with weights
confidence 0.30, content 0.25, actionability 0.20, specificity 0.15,
consistency 0.10 (summing to 1), category alignment folding into the content
weighting rather than carrying a weight of its own. -/
def claimOverallScore (f : AnalysisResult) : ℚ :=
  0.3 * (validateConfidenceScore f).score + 0.25 * (validateContentQuality f).score +
  0.2 * (validateActionability f).score + 0.15 * (validateSpecificity f).score +
  0.1 * (validateConsistency f).score

/-- C6 (counterexample): at `qaFinding` the code computes 101/110 ≈ 0.918
while the claim's weighted mean gives 0.91 — the two disagree, because the
code gives `category_alignment` the default weight 0.1 and divides by 1.1. -/
theorem C6_counterexample :
    calculateResultQualityScore (validateAnalysisResult qaFinding) = 101 / 110 ∧
    claimOverallScore qaFinding = 91 / 100 ∧
    calculateResultQualityScore (validateAnalysisResult qaFinding) ≠
      claimOverallScore qaFinding := by
  have h1 : calculateResultQualityScore (validateAnalysisResult qaFinding) = 101 / 110 := by
    rw [calcScore_closed_form, qaFinding_conf.1, qaFinding_content, qaFinding_action,
      qaFinding_spec, qaFinding_consist, qaFinding_align]
    norm_num
  have h2 : claimOverallScore qaFinding = 91 / 100 := by
    rw [claimOverallScore, qaFinding_conf.1, qaFinding_content, qaFinding_action,
      qaFinding_spec, qaFinding_consist]
    norm_num
  exact ⟨h1, h2, by rw [h1, h2]; norm_num⟩

/-- The statistics invariant: the three buckets partition the total. -/
def statsOK (s : BatchStatistics) : Prop :=
  s.valid_analyses + s.warning_analyses + s.invalid_analyses = s.total_analyses

theorem analysisStep_statsOK (tableId : String) (category : AnalysisCategory)
    (s : BatchLoopState × List QualityCheck × List FilteredEntry)
    (analysis : AnalysisResult) (h : statsOK s.1.statistics) :
    statsOK (analysisStep tableId category s analysis).1.statistics := by
  unfold statsOK at h ⊢
  simp only [analysisStep]
  split_ifs <;> simp <;> omega

theorem analyses_foldl_statsOK (tableId : String) (category : AnalysisCategory) :
    ∀ (l : List AnalysisResult) (s : BatchLoopState × List QualityCheck × List FilteredEntry),
      statsOK s.1.statistics →
      statsOK (l.foldl (analysisStep tableId category) s).1.statistics := by
  intro l
  induction l with
  | nil => intro s h; exact h
  | cons a as ih =>
    intro s h
    exact ih _ (analysisStep_statsOK tableId category s a h)

theorem categories_foldl_statsOK (tableId : String) :
    ∀ (l : List (AnalysisCategory × List AnalysisResult))
      (s : BatchLoopState × List QualityCheck × List (AnalysisCategory × List FilteredEntry)),
      statsOK s.1.statistics →
      statsOK (l.foldl (categoryStep tableId) s).1.statistics := by
  intro l
  induction l with
  | nil => intro s h; exact h
  | cons entry rest ih =>
    intro s h
    refine ih _ ?_
    simp only [categoryStep]
    exact analyses_foldl_statsOK tableId entry.1 entry.2 (s.1, s.2.1, []) h

theorem tables_foldl_statsOK :
    ∀ (l : List (String × List (AnalysisCategory × List AnalysisResult)))
      (st : BatchLoopState), statsOK st.statistics →
      statsOK (l.foldl tableStep st).statistics := by
  intro l
  induction l with
  | nil => intro st h; exact h
  | cons entry rest ih =>
    intro st h
    refine ih _ ?_
    simp only [tableStep]
    have hstats := categories_foldl_statsOK entry.1 entry.2 (st, [], []) h
    split_ifs <;> exact hstats

/-- The worst (minimum-score) check of `qaFinding` is its confidence check. -/
theorem qaFinding_worst :
    pyMin (validateConfidenceScore qaFinding)
      [validateContentQuality qaFinding, validateActionability qaFinding,
       validateSpecificity qaFinding, validateConsistency qaFinding,
       validateCategoryAlignment qaFinding] = validateConfidenceScore qaFinding := by
  unfold pyMin
  simp only [List.foldl_cons, List.foldl_nil]
  have h1 : ¬((validateContentQuality qaFinding).score <
      (validateConfidenceScore qaFinding).score) := by
    rw [qaFinding_content, qaFinding_conf.1]; norm_num
  rw [if_neg h1]
  have h2 : ¬((validateActionability qaFinding).score <
      (validateConfidenceScore qaFinding).score) := by
    rw [qaFinding_action, qaFinding_conf.1]; norm_num
  rw [if_neg h2]
  have h3 : ¬((validateSpecificity qaFinding).score <
      (validateConfidenceScore qaFinding).score) := by
    rw [qaFinding_spec, qaFinding_conf.1]; norm_num
  rw [if_neg h3]
  have h4 : ¬((validateConsistency qaFinding).score <
      (validateConfidenceScore qaFinding).score) := by
    rw [qaFinding_consist, qaFinding_conf.1]; norm_num
  rw [if_neg h4]
  have h5 : ¬((validateCategoryAlignment qaFinding).score <
      (validateConfidenceScore qaFinding).score) := by
    rw [qaFinding_align, qaFinding_conf.1]; norm_num
  rw [if_neg h5]

/-- C5: (i) batch validation statistics always satisfy
`valid + warning + invalid = total`; (ii) at a batch holding the single
finding `qaFinding`, whose worst verdict is `warning`, the finding is counted
as a warning and included in the filtered results — but as a **plain** entry:
the `quality_warning`-flagged dict the source builds on lines 145-146 is
discarded (line 147 appends the original object), contradicting the claim and
the source's own "Include with warning flag" comment. -/
theorem C5_warning_included_without_flag :
    (∀ results : List (String × List (AnalysisCategory × List AnalysisResult)),
      (validateBatchResults results).statistics.valid_analyses +
        (validateBatchResults results).statistics.warning_analyses +
        (validateBatchResults results).statistics.invalid_analyses =
        (validateBatchResults results).statistics.total_analyses) ∧
    (validateBatchResults [("tbl1", [(.structure', [qaFinding])])]).statistics =
      { total_analyses := 1, valid_analyses := 0, warning_analyses := 1,
        invalid_analyses := 0 } ∧
    (validateBatchResults [("tbl1", [(.structure', [qaFinding])])]).filtered_results =
      [("tbl1", [(.structure', [.plain qaFinding])])] := by
  refine ⟨?_, ?_, ?_⟩
  · intro results
    exact tables_foldl_statsOK results {} rfl
  · simp only [validateBatchResults, List.foldl_cons, List.foldl_nil, tableStep,
      categoryStep, analysisStep, validateAnalysisResult]
    rw [qaFinding_worst, qaFinding_conf.2]
    rw [if_neg (by decide), if_pos rfl]
    rfl
  · simp only [validateBatchResults, List.foldl_cons, List.foldl_nil, tableStep,
      categoryStep, analysisStep, validateAnalysisResult]
    rw [qaFinding_worst, qaFinding_conf.2]
    rw [if_neg (by decide), if_pos rfl]
    rfl

end LLMOrch
